import Mathlib

/-! # Smart street light: database bootstrap layer

A shallow embedding of the two source files of the repository:

* `src/config/database.js`: the connection pool options read from the environment and the
  start-up health check `testConnection`;
* `src/database/init-db.js`: the one-shot schema initializer `initializeDatabase`.

JavaScript control flow (sequenced awaits, `try`/`catch`/`finally`, `process.exit`) is embedded as
a small completion monad over an explicit process state.  The MySQL server the scripts talk to is
embedded as a state type holding the five tables of the schema, with the semantics of the
statements the initializer issues (`CREATE ... IF NOT EXISTS`, `USE`,
`INSERT ... ON DUPLICATE KEY UPDATE c = c`).  Everything the scripts cannot control (which awaited
call fails and with which message, the salted hash `bcrypt` returns, the server clock, the
default collation of the server) is a parameter.
-/

set_option autoImplicit false

namespace StreetLight

/-! ## JavaScript values and the environment -/

/-- The contents of `process.env` once `dotenv` has run: a variable is unset or holds a string. -/
abbrev Env := String → Option String

/-- The JavaScript values that reach a configuration object or `console`. -/
inductive JSValue where
  | undefined
  | str (s : String)
  | num (n : Int)
  deriving DecidableEq, Repr

/-- The expression `process.env.X`: `undefined` for an unset variable. -/
def envValue (env : Env) (name : String) : JSValue :=
  match env name with
  | some s => .str s
  | none => .undefined

/-- The expression `process.env.X || fallback` with a string fallback: `undefined` and the empty
string are falsy. -/
def envOr (env : Env) (name : String) (fallback : String) : String :=
  match env name with
  | some s => if s = "" then fallback else s
  | none => fallback

/-- The expression `process.env.X || n` with a numeric fallback (`init-db.js`, line 14): the
variable's string when it is set and non-empty, the number otherwise. -/
def envOrNum (env : Env) (name : String) (fallback : Int) : JSValue :=
  match env name with
  | some s => if s = "" then .num fallback else .str s
  | none => .num fallback

/-- The white space `parseInt` skips (ECMAScript `StrWhiteSpaceChar`: white space and line
terminators). -/
def isStrWhiteSpaceChar (c : Char) : Bool :=
  decide (c.toNat ∈ [0x9, 0xA, 0xB, 0xC, 0xD, 0x20, 0xA0, 0x1680, 0x2028, 0x2029, 0x202F, 0x205F,
    0x3000, 0xFEFF]) || (decide (0x2000 ≤ c.toNat) && decide (c.toNat ≤ 0x200A))

/-- The value of a character as a digit of the given radix, if it is one. -/
def radixDigit (radix : Nat) (c : Char) : Option Nat :=
  let v : Option Nat :=
    if 48 ≤ c.toNat ∧ c.toNat ≤ 57 then some (c.toNat - 48)
    else if 97 ≤ c.toNat ∧ c.toNat ≤ 122 then some (c.toNat - 87)
    else if 65 ≤ c.toNat ∧ c.toNat ≤ 90 then some (c.toNat - 55)
    else none
  match v with
  | some d => if d < radix then some d else none
  | none => none

/-- The longest prefix of radix digits, as digit values. -/
def leadingDigits (radix : Nat) : List Char → List Nat
  | [] => []
  | c :: cs =>
    match radixDigit radix c with
    | some d => d :: leadingDigits radix cs
    | none => []

/-- The numbers `parseInt` returns.  A JavaScript number is a double: an integer below `2 ^ 53`
in absolute value is held exactly; from `2 ^ 53` up the digits read are rounded to a double (or
give an infinity), and `rounded` stands for that value, of which only the sign is kept here. -/
inductive JSNumber where
  | nan
  | int (n : Int)
  | rounded (negative : Bool)
  deriving DecidableEq, Repr

/-- The call `parseInt(x)` with no radix argument, for `x` a string or `undefined`.  Leading
white space is skipped, then an optional sign, then an optional `0x`/`0X` prefix selecting radix
16, then the longest run of digits is read: no digit gives `NaN`, digits denoting a number below
`2 ^ 53` give that number with the sign, and digits denoting more give a rounded double. -/
def parseInt (input : Option String) : JSNumber :=
  let inputString : String := match input with
    | some s => s
    | none => "undefined"
  let s0 := inputString.toList.dropWhile isStrWhiteSpaceChar
  let sign : Int := match s0 with
    | '-' :: _ => -1
    | _ => 1
  let s1 := match s0 with
    | '-' :: rest => rest
    | '+' :: rest => rest
    | _ => s0
  let (radix, s2) : Nat × List Char := match s1 with
    | '0' :: 'x' :: rest => (16, rest)
    | '0' :: 'X' :: rest => (16, rest)
    | _ => (10, s1)
  let z := leadingDigits radix s2
  let mathInt : Nat := z.foldl (fun acc d => acc * radix + d) 0
  if z = [] then .nan
  else if mathInt < 2 ^ 53 then .int (sign * (mathInt : Int))
  else .rounded (decide (sign < 0))

/-- The expression `parseInt(process.env.X) || n`: `NaN` and `0` are falsy, every other number
is kept. -/
def parseIntOr (env : Env) (name : String) (fallback : Int) : JSNumber :=
  match parseInt (env name) with
  | .nan => .int fallback
  | .int n => if n = 0 then .int fallback else .int n
  | .rounded negative => .rounded negative

/-! ## `src/config/database.js`: pool options -/

/-- The options object handed to `mysql.createPool`. -/
structure PoolOptions where
  host : String
  user : String
  password : String
  database : String
  port : JSNumber
  waitForConnections : Bool
  connectionLimit : Nat
  queueLimit : Nat
  enableKeepAlive : Bool
  keepAliveInitialDelay : Nat
  deriving DecidableEq, Repr

/-- The argument of `mysql.createPool` (`database.js`, lines 5-17). -/
def poolOptions (env : Env) : PoolOptions where
  host := envOr env "DB_HOST" "127.0.0.1"
  user := envOr env "DB_USER" "root"
  password := envOr env "DB_PASSWORD" ""
  database := envOr env "DB_NAME" "smart_street_light"
  port := parseIntOr env "DB_PORT" 3306
  waitForConnections := true
  connectionLimit := 10
  queueLimit := 0
  enableKeepAlive := true
  keepAliveInitialDelay := 0

/-! ## The MySQL server: schema of `init-db.js`

Rows carry every column of the `CREATE TABLE` statements.  A timestamp is a natural number (the
server clock), an `ENUM` column is an inductive type, a nullable column is an `Option`. -/

/-- The column `role ENUM('admin', 'user')` of `users`. -/
inductive Role where
  | admin
  | user
  deriving DecidableEq, Repr

/-- The column `status ENUM('ON', 'OFF')` of `devices`. -/
inductive Status where
  | ON
  | OFF
  deriving DecidableEq, Repr

/-- The column `mode ENUM('AUTO', 'MANUAL')` of `devices`. -/
inductive Mode where
  | AUTO
  | MANUAL
  deriving DecidableEq, Repr

/-- A row of `users` (`init-db.js`, lines 27-33). -/
structure UserRow where
  id : Nat
  username : String
  password_hash : String
  role : Role
  created_at : Nat
  deriving DecidableEq, Repr

/-- A row of `devices` (lines 39-49). -/
structure DeviceRow where
  id : Nat
  device_id : String
  device_name : String
  location : Option String
  status : Status
  mode : Mode
  is_online : Bool
  last_seen : Option Nat
  created_at : Nat
  deriving DecidableEq, Repr

/-- A row of `sensor_data` (lines 55-62); `device_id` references `devices(id)`. -/
structure SensorDataRow where
  id : Nat
  device_id : Nat
  light_intensity : Int
  timestamp : Nat
  deriving DecidableEq, Repr

/-- A row of `control_logs` (lines 68-79); `device_id` references `devices(id)` and `user_id`
references `users(id)`. -/
structure ControlLogRow where
  id : Nat
  device_id : Nat
  action : String
  mode : Option String
  user_id : Option Nat
  details : Option String
  timestamp : Nat
  deriving DecidableEq, Repr

/-- A row of `system_settings` (lines 85-90). -/
structure SettingRow where
  id : Nat
  setting_key : String
  setting_value : String
  updated_at : Nat
  deriving DecidableEq, Repr

/-- A table: its rows in insertion order and the next `AUTO_INCREMENT` value. -/
structure Table (ρ : Type) where
  rows : List ρ
  autoIncrement : Nat
  deriving DecidableEq, Repr

/-- A freshly created table. -/
def Table.empty {ρ : Type} : Table ρ := ⟨[], 1⟩

/-- A database: each of the five tables of the schema is absent or present. -/
structure Database where
  users : Option (Table UserRow)
  devices : Option (Table DeviceRow)
  sensor_data : Option (Table SensorDataRow)
  control_logs : Option (Table ControlLogRow)
  system_settings : Option (Table SettingRow)
  deriving DecidableEq, Repr

/-- A freshly created database. -/
def Database.empty : Database := ⟨none, none, none, none, none⟩

/-- The names of the tables present in a database. -/
def Database.tableNames (db : Database) : List String :=
  (if db.users.isSome then ["users"] else []) ++
  (if db.devices.isSome then ["devices"] else []) ++
  (if db.sensor_data.isSome then ["sensor_data"] else []) ++
  (if db.control_logs.isSome then ["control_logs"] else []) ++
  (if db.system_settings.isSome then ["system_settings"] else [])

/-- The characters of a plain word: lower-case ASCII letters, digits and the underscore. -/
def isPlainChar (c : Char) : Bool :=
  (decide (97 ≤ c.toNat) && decide (c.toNat ≤ 122)) ||
    (decide (48 ≤ c.toNat) && decide (c.toNat ≤ 57)) || decide (c.toNat = 95)

/-- A word written in lower-case ASCII letters, digits and underscores. -/
def isPlainWord (s : String) : Bool := s.data.all isPlainChar

/-- A collation.  The key columns of the schema (`username`, `device_id`, `setting_key`) declare
no `COLLATE`, so the default collation of the server decides when two strings are the same key:
when they have the same weight (`WEIGHT_STRING`).  Collations differ in what they ignore (case,
accents, trailing spaces); none identifies two different plain words. -/
structure Collation where
  weight : String → String
  plain : ∀ a b : String, isPlainWord a = true → isPlainWord b = true →
    weight a = weight b → a = b

/-- The collation that compares strings as they are (a `_bin` collation). -/
def Collation.binary : Collation where
  weight := fun s => s
  plain := fun _ _ _ _ h => h

/-- A collation that ignores the case of ASCII letters (a `_ci` collation). -/
def Collation.caseInsensitive : Collation where
  weight := fun s => String.mk (s.data.map Char.toLower)
  plain := by
    have fixed : ∀ l : List Char, l.all isPlainChar = true → l.map Char.toLower = l := by
      intro l
      induction l with
      | nil => intro _; rfl
      | cons c l ih =>
        intro h
        rw [List.all_cons, Bool.and_eq_true] at h
        have hc : c.toLower = c := by
          have h1 := h.1
          simp only [isPlainChar, Bool.or_eq_true, Bool.and_eq_true, decide_eq_true_eq] at h1
          unfold Char.toLower
          have hn : ¬(c.toNat ≥ 65 ∧ c.toNat ≤ 90) := by omega
          simp only [hn, if_false]
        rw [List.map_cons, hc, ih h.2]
    intro a b ha hb h
    have hd : a.data.map Char.toLower = b.data.map Char.toLower :=
      congrArg String.data h
    rw [fixed a.data ha, fixed b.data hb] at hd
    exact String.ext hd

/-- A MySQL server: its default collation and the databases it holds, by name. -/
structure Server where
  collation : Collation
  databases : String → Option Database

/-- A server holding no database. -/
def Server.empty (collation : Collation) : Server := ⟨collation, fun _ => none⟩

/-- Replace (or add) one database of a server. -/
def Server.setDatabase (s : Server) (name : String) (db : Database) : Server :=
  ⟨s.collation, fun n => if n = name then some db else s.databases n⟩

/-- The options object handed to `mysql.createConnection` (lines 10-15). -/
structure ConnectionOptions where
  host : String
  user : String
  password : String
  port : JSValue
  deriving DecidableEq, Repr

/-- An open connection: its options and the database selected by `USE`, if any. -/
structure Connection where
  options : ConnectionOptions
  database : Option String
  deriving DecidableEq, Repr

/-! ### Statements

Each statement maps the server (and the connection) to an error message or to the new state.
MySQL runs in strict mode by default, so a value longer than its `VARCHAR(n)` column is an error.
The `AUTO_INCREMENT` column always receives a fresh value, so the only unique key on which the
`INSERT` statements below can collide is the named one (`setting_key`, `username`, `device_id`);
two values of such a key collide when the collation gives them the same weight.  As in InnoDB, a
row that collides still consumes an `AUTO_INCREMENT` value. -/

/-- The statement `CREATE DATABASE IF NOT EXISTS name`. -/
def createDatabaseIfNotExists (name : String) (s : Server) : Server :=
  match s.databases name with
  | some _ => s
  | none => s.setDatabase name Database.empty

/-- The statement `USE name`: fails when the server has no such database. -/
def useDatabase (name : String) (s : Server) (c : Connection) : Except String Connection :=
  match s.databases name with
  | some _ => .ok { c with database := some name }
  | none => .error ("Unknown database '" ++ name ++ "'")

/-- Run a statement against the database selected on the connection. -/
def onSelectedDatabase (s : Server) (c : Connection) (f : Database → Except String Database) :
    Except String Server :=
  match c.database with
  | none => .error "No database selected"
  | some name =>
    match s.databases name with
    | none => .error ("Unknown database '" ++ name ++ "'")
    | some db =>
      match f db with
      | .ok db1 => .ok (s.setDatabase name db1)
      | .error e => .error e

/-- The statement `CREATE TABLE IF NOT EXISTS users (...)`. -/
def createUsersTable (db : Database) : Except String Database :=
  match db.users with
  | some _ => .ok db
  | none => .ok { db with users := some Table.empty }

/-- The statement `CREATE TABLE IF NOT EXISTS devices (...)`. -/
def createDevicesTable (db : Database) : Except String Database :=
  match db.devices with
  | some _ => .ok db
  | none => .ok { db with devices := some Table.empty }

/-- The statement `CREATE TABLE IF NOT EXISTS sensor_data (...)`: creating the table needs the
table `devices` its foreign key references. -/
def createSensorDataTable (db : Database) : Except String Database :=
  match db.sensor_data with
  | some _ => .ok db
  | none =>
    if db.devices.isSome then .ok { db with sensor_data := some Table.empty }
    else .error "Failed to open the referenced table 'devices'"

/-- The statement `CREATE TABLE IF NOT EXISTS control_logs (...)`: creating the table needs the
tables `devices` and `users` its foreign keys reference. -/
def createControlLogsTable (db : Database) : Except String Database :=
  match db.control_logs with
  | some _ => .ok db
  | none =>
    if db.devices.isSome then
      if db.users.isSome then .ok { db with control_logs := some Table.empty }
      else .error "Failed to open the referenced table 'users'"
    else .error "Failed to open the referenced table 'devices'"

/-- The statement `CREATE TABLE IF NOT EXISTS system_settings (...)`. -/
def createSystemSettingsTable (db : Database) : Except String Database :=
  match db.system_settings with
  | some _ => .ok db
  | none => .ok { db with system_settings := some Table.empty }

/-- One row of `INSERT INTO system_settings (setting_key, setting_value) VALUES ... ON DUPLICATE
KEY UPDATE setting_value = setting_value`: when a row holds the same key under the collation, the
statement assigns the column its own value, which changes nothing (so `updated_at` is not
refreshed either); otherwise the row is appended with `updated_at` at the current time. -/
def upsertSetting (collation : Collation) (now : Nat) (t : Table SettingRow)
    (kv : String × String) : Table SettingRow :=
  if t.rows.any (fun r => collation.weight r.setting_key = collation.weight kv.1) then
    { t with autoIncrement := t.autoIncrement + 1 }
  else
    { rows := t.rows ++ [⟨t.autoIncrement, kv.1, kv.2, now⟩]
      autoIncrement := t.autoIncrement + 1 }

/-- The pair fits `setting_key VARCHAR(50)` and `setting_value VARCHAR(255)`. -/
def fitsSetting (kv : String × String) : Bool :=
  decide (kv.1.length ≤ 50) && decide (kv.2.length ≤ 255)

/-- The multi-row statement `INSERT INTO system_settings ... ON DUPLICATE KEY UPDATE
setting_value = setting_value`: the rows are processed in order; the statement is atomic. -/
def insertSettings (collation : Collation) (now : Nat) (values : List (String × String))
    (db : Database) : Except String Database :=
  match db.system_settings with
  | none => .error "Table 'system_settings' doesn't exist"
  | some t =>
    if values.all fitsSetting then
      .ok { db with system_settings := some (values.foldl (upsertSetting collation now) t) }
    else .error "Data too long for column"

/-- The row part of `INSERT INTO users (username, password_hash, role) VALUES (?, ?, 'admin')
ON DUPLICATE KEY UPDATE username = username`: nothing changes when a row holds the same username
under the collation. -/
def upsertUser (collation : Collation) (now : Nat) (t : Table UserRow)
    (username password_hash : String) : Table UserRow :=
  if t.rows.any (fun r => collation.weight r.username = collation.weight username) then
    { t with autoIncrement := t.autoIncrement + 1 }
  else
    { rows := t.rows ++ [⟨t.autoIncrement, username, password_hash, Role.admin, now⟩]
      autoIncrement := t.autoIncrement + 1 }

/-- The statement `INSERT INTO users (username, password_hash, role) VALUES (?, ?, 'admin')
ON DUPLICATE KEY UPDATE username = username` with its two parameters. -/
def insertUser (collation : Collation) (now : Nat) (username password_hash : String)
    (db : Database) : Except String Database :=
  match db.users with
  | none => .error "Table 'users' doesn't exist"
  | some t =>
    if username.length ≤ 50 ∧ password_hash.length ≤ 255 then
      .ok { db with users := some (upsertUser collation now t username password_hash) }
    else .error "Data too long for column"

/-- The parameters of the sample device statement: `device_id`, `device_name`, `location`. -/
structure DeviceParams where
  device_id : String
  device_name : String
  location : Option String
  deriving DecidableEq, Repr

/-- The row part of `INSERT INTO devices (device_id, device_name, location, status, mode,
is_online) VALUES (?, ?, ?, 'OFF', 'AUTO', false) ON DUPLICATE KEY UPDATE
device_name = device_name`: nothing changes when a row holds the same device_id under the
collation; `last_seen` has no default and stays `NULL`. -/
def upsertDevice (collation : Collation) (now : Nat) (t : Table DeviceRow) (d : DeviceParams) :
    Table DeviceRow :=
  if t.rows.any (fun r => collation.weight r.device_id = collation.weight d.device_id) then
    { t with autoIncrement := t.autoIncrement + 1 }
  else
    { rows := t.rows ++ [⟨t.autoIncrement, d.device_id, d.device_name, d.location,
        Status.OFF, Mode.AUTO, false, none, now⟩]
      autoIncrement := t.autoIncrement + 1 }

/-- The parameters fit `device_id VARCHAR(50)`, `device_name VARCHAR(100)` and
`location VARCHAR(255)`. -/
def fitsDevice (d : DeviceParams) : Bool :=
  decide (d.device_id.length ≤ 50) && decide (d.device_name.length ≤ 100) &&
    (match d.location with
     | some l => decide (l.length ≤ 255)
     | none => true)

/-- The sample device statement run against the table `devices`: an error when a value does not
fit its column, the upsert otherwise. -/
def insertDeviceRow (collation : Collation) (now : Nat) (d : DeviceParams)
    (t : Table DeviceRow) : Except String (Table DeviceRow) :=
  if fitsDevice d then .ok (upsertDevice collation now t d)
  else .error "Data too long for column"

/-- The statement `INSERT INTO devices ... ON DUPLICATE KEY UPDATE device_name = device_name`
with its three parameters (lines 125-129). -/
def insertDevice (collation : Collation) (now : Nat) (d : DeviceParams) (db : Database) :
    Except String Database :=
  match db.devices with
  | none => .error "Table 'devices' doesn't exist"
  | some t =>
    match insertDeviceRow collation now d t with
    | .ok t1 => .ok { db with devices := some t1 }
    | .error e => .error e

/-! ## Processes: awaited calls, `try`/`catch`/`finally`, `process.exit` -/

/-- The awaited external calls of `initializeDatabase`, in program order. -/
inductive Step where
  | connect
  | createDatabase
  | useDatabase
  | createUsers
  | createDevices
  | createSensorData
  | createControlLogs
  | createSystemSettings
  | seedSettings
  | hashPassword
  | seedAdmin
  | seedDevice
  deriving DecidableEq, Repr

/-- The position of a step in the program. -/
def Step.rank : Step → Nat
  | .connect => 0
  | .createDatabase => 1
  | .useDatabase => 2
  | .createUsers => 3
  | .createDevices => 4
  | .createSensorData => 5
  | .createControlLogs => 6
  | .createSystemSettings => 7
  | .seedSettings => 8
  | .hashPassword => 9
  | .seedAdmin => 10
  | .seedDevice => 11

/-- Every step, in program order. -/
def Step.all : List Step :=
  [.connect, .createDatabase, .useDatabase, .createUsers, .createDevices, .createSensorData,
   .createControlLogs, .createSystemSettings, .seedSettings, .hashPassword, .seedAdmin,
   .seedDevice]

/-- What a process does that an observer can see, in order. -/
inductive Event where
  | log (args : List JSValue)
  | error (args : List JSValue)
  | call (step : Step)
  | connectionEnd
  | getConnection
  | release
  deriving DecidableEq, Repr

/-- The state of a running script: the server it talks to, the variable `connection` of
`initializeDatabase` (`undefined` until the connect call resolves) and the events so far. -/
structure Proc where
  server : Server
  connection : Option Connection
  trace : List Event

/-- How a piece of JavaScript completes: normally, by throwing an error with a message, or
because `process.exit` ended the process. -/
inductive Completion (α : Type) where
  | done (a : α)
  | thrown (message : String)
  | exited (code : Nat)
  deriving DecidableEq, Repr

/-- A piece of JavaScript run to completion from a process state. -/
def JS (α : Type) : Type := Proc → Completion α × Proc

/-- Normal completion with a value. -/
def JS.pure {α : Type} (a : α) : JS α := fun p => (.done a, p)

/-- Sequencing: what follows runs only after a normal completion. -/
def JS.bind {α β : Type} (m : JS α) (f : α → JS β) : JS β := fun p =>
  match m p with
  | (.done a, q) => f a q
  | (.thrown e, q) => (.thrown e, q)
  | (.exited c, q) => (.exited c, q)

instance : Monad JS where
  pure := JS.pure
  bind := JS.bind

/-- The statement `try { body } catch (error) { handler } finally { finalizer }`, where `error`
is used through `error.message` only.  The finalizer runs after a normal completion and after a
throw; once `process.exit` has been called the process is gone and nothing runs any more. -/
def tryCatchFinally (body : JS Unit) (handler : String → JS Unit) (finalizer : JS Unit) :
    JS Unit := fun p =>
  match body p with
  | (.done _, q) => finalizer q
  | (.exited c, q) => (.exited c, q)
  | (.thrown message, q) =>
    match handler message q with
    | (.done _, r) => finalizer r
    | (.exited c, r) => (.exited c, r)
    | (.thrown e, r) =>
      match finalizer r with
      | (.done _, t) => (.thrown e, t)
      | other => other

/-- The statement `try { body } catch (err) { handler }`. -/
def tryCatch (body : JS Unit) (handler : String → JS Unit) : JS Unit :=
  tryCatchFinally body handler (JS.pure ())

/-- Append an event to the trace. -/
def emit (e : Event) : JS Unit := fun p => (.done (), { p with trace := p.trace ++ [e] })

/-- The call `console.log(...)`. -/
def consoleLog (args : List JSValue) : JS Unit := emit (.log args)

/-- The call `console.error(...)`. -/
def consoleError (args : List JSValue) : JS Unit := emit (.error args)

/-- The call `process.exit(code)`: the process ends synchronously. -/
def processExit (code : Nat) : JS Unit := fun p => (.exited code, p)

/-- The loop `for (const x of xs) { await f(x) }`. -/
def forOf {α : Type} : List α → (α → JS Unit) → JS Unit
  | [], _ => JS.pure ()
  | x :: xs, f => JS.bind (f x) (fun _ => forOf xs f)

/-- The output of `bcrypt.hash`: a 60 character string (`$2a$`, the cost, the salt, the
digest). -/
structure BcryptHash where
  value : String
  length_eq : value.length = 60

/-- What `initializeDatabase` does not control: which awaited call fails, for whatever reason
(server unreachable, access denied, a statement the server rejects), with the `message` of the
error; what `bcrypt.hash` resolves to for a password and a cost (the salt is random); and the
server clock when a statement runs. -/
structure World where
  fault : Step → Option String
  bcrypt : String → Nat → BcryptHash
  now : Step → Nat

/-- The call `await mysql.createConnection(options)` assigned to `connection`. -/
def createConnection (w : World) (options : ConnectionOptions) : JS Unit := fun p =>
  let q := { p with trace := p.trace ++ [Event.call Step.connect] }
  match w.fault Step.connect with
  | some message => (.thrown message, q)
  | none => (.done (), { q with connection := some ⟨options, none⟩ })

/-- The call `await connection.query(...)`: the statement runs on the server unless the call
fails for a reason outside the script. -/
def query (w : World) (step : Step)
    (statement : Server → Connection → Except String (Server × Connection)) : JS Unit := fun p =>
  let q := { p with trace := p.trace ++ [Event.call step] }
  match w.fault step with
  | some message => (.thrown message, q)
  | none =>
    match p.connection with
    | none => (.thrown "Cannot read properties of undefined (reading 'query')", q)
    | some c =>
      match statement p.server c with
      | .ok (s, c1) => (.done (), { q with server := s, connection := some c1 })
      | .error message => (.thrown message, q)

/-- A statement on the selected database, as an argument of `query`. -/
def onTables (f : Database → Except String Database) (s : Server) (c : Connection) :
    Except String (Server × Connection) :=
  match onSelectedDatabase s c f with
  | .ok s1 => .ok (s1, c)
  | .error e => .error e

/-- The call `await bcrypt.hash(password, rounds)`. -/
def bcryptHash (w : World) (password : String) (rounds : Nat) : JS String := fun p =>
  let q := { p with trace := p.trace ++ [Event.call Step.hashPassword] }
  match w.fault Step.hashPassword with
  | some message => (.thrown message, q)
  | none => (.done (w.bcrypt password rounds).value, q)

/-- The call `await connection.end()` under `if (connection)`; the promise of `mysql2` for `end`
always resolves. -/
def endConnection : JS Unit := fun p =>
  match p.connection with
  | some _ => (.done (), { p with trace := p.trace ++ [Event.connectionEnd] })
  | none => (.done (), p)

/-- What the script leaves behind: the server, the events and the exit status of the process
(`0` when the script runs to its end, the argument of `process.exit`, `1` for an uncaught
rejection). -/
structure Outcome where
  server : Server
  trace : List Event
  status : Nat

/-- Run a script as a fresh process against a server. -/
def runProcess (script : JS Unit) (s : Server) : Outcome :=
  let r := script { server := s, connection := none, trace := [] }
  { server := r.2.server
    trace := r.2.trace
    status := match r.1 with
      | .done _ => 0
      | .exited code => code
      | .thrown _ => 1 }

/-! ## `src/database/init-db.js` -/

/-- The name spliced into the `CREATE DATABASE` and `USE` statements. -/
def databaseName (env : Env) : String := envOr env "DB_NAME" "smart_street_light"

/-- The options of the administrative connection (lines 10-15). -/
def connectionOptions (env : Env) : ConnectionOptions where
  host := envOr env "DB_HOST" "localhost"
  user := envOr env "DB_USER" "root"
  password := envOr env "DB_PASSWORD" ""
  port := envOrNum env "DB_PORT" 3306

/-- The `VALUES` of the default settings statement (lines 97-99). -/
def defaultSettings : List (String × String) :=
  [("auto_mode_enabled", "true"), ("light_threshold", "2000"), ("polling_interval", "5000")]

/-- The constant `sampleDevices` (lines 120-122). -/
def sampleDevices : List DeviceParams :=
  [⟨"LAMP_001", "Street Lamp 1", some "Main Street - North"⟩]

/-- The line logged once the admin user is seeded (line 113). -/
def completionMessage : List JSValue :=
  [.str "\n✅ Database initialization completed successfully!"]

/-- The body of the `try` block of `initializeDatabase` (lines 9-131). -/
def initializeBody (env : Env) (w : World) : JS Unit := do
  createConnection w (connectionOptions env)
  consoleLog [.str "Connected to MySQL server"]
  query w .createDatabase (fun s c => .ok (createDatabaseIfNotExists (databaseName env) s, c))
  consoleLog [.str ("Database '" ++ databaseName env ++ "' created or already exists")]
  query w .useDatabase (fun s c =>
    match useDatabase (databaseName env) s c with
    | .ok c1 => .ok (s, c1)
    | .error e => .error e)
  query w .createUsers (onTables createUsersTable)
  consoleLog [.str "Users table created"]
  query w .createDevices (onTables createDevicesTable)
  consoleLog [.str "Devices table created"]
  query w .createSensorData (onTables createSensorDataTable)
  consoleLog [.str "Sensor data table created"]
  query w .createControlLogs (onTables createControlLogsTable)
  consoleLog [.str "Control logs table created"]
  query w .createSystemSettings (onTables createSystemSettingsTable)
  consoleLog [.str "System settings table created"]
  query w .seedSettings (fun s c =>
    onTables (insertSettings s.collation (w.now .seedSettings) defaultSettings) s c)
  consoleLog [.str "Default system settings inserted"]
  let defaultPassword := "admin123"
  let hashedPassword ← bcryptHash w defaultPassword 10
  query w .seedAdmin (fun s c =>
    onTables (insertUser s.collation (w.now .seedAdmin) "admin" hashedPassword) s c)
  consoleLog completionMessage
  consoleLog [.str "\nDefault Admin Credentials:"]
  consoleLog [.str "Username: admin"]
  consoleLog [.str "Password: admin123"]
  consoleLog [.str "\n⚠️  Please change the default password after first login!\n"]
  forOf sampleDevices (fun device =>
    query w .seedDevice (fun s c =>
      onTables (insertDevice s.collation (w.now .seedDevice) device) s c))
  consoleLog [.str "Sample devices inserted for testing\n"]

/-- The function `initializeDatabase` (lines 5-141). -/
def initializeDatabase (env : Env) (w : World) : JS Unit :=
  tryCatchFinally (initializeBody env w)
    (fun message => do
      consoleError [.str "Error initializing database:", .str message]
      processExit 1)
    endConnection

/-- The script `init-db.js`: one call of `initializeDatabase` in a fresh process. -/
def runInit (env : Env) (w : World) (s : Server) : Outcome :=
  runProcess (initializeDatabase env w) s

/-! ## `src/config/database.js`: health check -/

/-- The call `await pool.getConnection()`; `acquireError` is the `message` of the error when the
pool cannot hand out a connection. -/
def poolGetConnection (acquireError : Option String) : JS Unit := fun p =>
  let q := { p with trace := p.trace ++ [Event.getConnection] }
  match acquireError with
  | some message => (.thrown message, q)
  | none => (.done (), q)

/-- The function `testConnection` (lines 20-32). -/
def testConnection (env : Env) (acquireError : Option String) : JS Unit :=
  tryCatch
    (do
      poolGetConnection acquireError
      consoleLog [.str "✅ Database connected successfully to", envValue env "DB_NAME"]
      emit .release)
    (fun message => do
      consoleError [.str "❌ Database connection failed:", .str message]
      consoleError [.str "Host:", envValue env "DB_HOST"]
      consoleError [.str "Port:", envValue env "DB_PORT"]
      consoleError [.str "User:", envValue env "DB_USER"]
      consoleError [.str "Please ensure MySQL is running and credentials in .env are correct"])

/-- The script `database.js`: one call of `testConnection` at module load. -/
def runTestConnection (env : Env) (acquireError : Option String) (s : Server) : Outcome :=
  runProcess (testConnection env acquireError) s

/-! ## Observations on servers and traces -/

/-- The rows of `users` in a database that may be absent (no rows when the database or the
table is absent). -/
def usersRows (o : Option Database) : List UserRow :=
  match o with
  | some db =>
    match db.users with
    | some t => t.rows
    | none => []
  | none => []

/-- The rows of `devices` in a database that may be absent. -/
def devicesRows (o : Option Database) : List DeviceRow :=
  match o with
  | some db =>
    match db.devices with
    | some t => t.rows
    | none => []
  | none => []

/-- The rows of `system_settings` in a database that may be absent. -/
def settingsRows (o : Option Database) : List SettingRow :=
  match o with
  | some db =>
    match db.system_settings with
    | some t => t.rows
    | none => []
  | none => []

/-- The value stored under a setting key, as `SELECT setting_value FROM system_settings WHERE
setting_key = key` returns it: the comparison is the collation's. -/
def settingValue (collation : Collation) (rows : List SettingRow) (key : String) :
    Option String :=
  (rows.find? (fun r => decide (collation.weight r.setting_key = collation.weight key))).map
    (fun r => r.setting_value)

/-- What a database holds: which tables are present, and the rows of each. -/
structure Contents where
  users : Option (List UserRow)
  devices : Option (List DeviceRow)
  sensor_data : Option (List SensorDataRow)
  control_logs : Option (List ControlLogRow)
  system_settings : Option (List SettingRow)
  deriving DecidableEq, Repr

/-- The tables of a database and their rows, without the `AUTO_INCREMENT` counters. -/
def Database.contents (db : Database) : Contents where
  users := db.users.map (fun t => t.rows)
  devices := db.devices.map (fun t => t.rows)
  sensor_data := db.sensor_data.map (fun t => t.rows)
  control_logs := db.control_logs.map (fun t => t.rows)
  system_settings := db.system_settings.map (fun t => t.rows)

/-- The awaited calls of a trace, in order. -/
def executedSteps (trace : List Event) : List Step :=
  trace.filterMap (fun e =>
    match e with
    | .call k => some k
    | _ => none)

/-! ## The run, step by step

The definitions below describe a run of `initializeDatabase` whose first `n` steps succeed: the
target database, the server and the events.  The lemmas `runInit_ok` and `runInit_fault` prove
that `runInit` computes exactly these. -/

/-- The effect on the target database of a step that succeeds. -/
def provisionStep (collation : Collation) (w : World) (k : Step) (db : Database) : Database :=
  match k with
  | .createUsers => { db with users := some (db.users.getD Table.empty) }
  | .createDevices => { db with devices := some (db.devices.getD Table.empty) }
  | .createSensorData => { db with sensor_data := some (db.sensor_data.getD Table.empty) }
  | .createControlLogs => { db with control_logs := some (db.control_logs.getD Table.empty) }
  | .createSystemSettings =>
    { db with system_settings := some (db.system_settings.getD Table.empty) }
  | .seedSettings =>
    { db with
      system_settings :=
        some (defaultSettings.foldl (upsertSetting collation (w.now .seedSettings))
          (db.system_settings.getD Table.empty)) }
  | .seedAdmin =>
    { db with
      users :=
        some (upsertUser collation (w.now .seedAdmin) (db.users.getD Table.empty) "admin"
          (w.bcrypt "admin123" 10).value) }
  | .seedDevice =>
    { db with
      devices :=
        some (sampleDevices.foldl (upsertDevice collation (w.now .seedDevice))
          (db.devices.getD Table.empty)) }
  | _ => db

/-- The target database once the first `n` steps have succeeded. -/
def databaseAfter (collation : Collation) (w : World) (n : Nat) (db : Database) : Database :=
  (Step.all.take n).foldl (fun d k => provisionStep collation w k d) db

/-- The server once the first `n` steps have succeeded. -/
def serverAfter (env : Env) (w : World) (s : Server) (n : Nat) : Server :=
  if n ≤ 1 then s
  else s.setDatabase (databaseName env)
    (databaseAfter s.collation w n ((s.databases (databaseName env)).getD Database.empty))

/-- The lines logged after a step has succeeded. -/
def logsAfter (env : Env) : Step → List Event
  | .connect => [.log [.str "Connected to MySQL server"]]
  | .createDatabase =>
    [.log [.str ("Database '" ++ databaseName env ++ "' created or already exists")]]
  | .useDatabase => []
  | .createUsers => [.log [.str "Users table created"]]
  | .createDevices => [.log [.str "Devices table created"]]
  | .createSensorData => [.log [.str "Sensor data table created"]]
  | .createControlLogs => [.log [.str "Control logs table created"]]
  | .createSystemSettings => [.log [.str "System settings table created"]]
  | .seedSettings => [.log [.str "Default system settings inserted"]]
  | .hashPassword => []
  | .seedAdmin =>
    [.log completionMessage,
     .log [.str "\nDefault Admin Credentials:"],
     .log [.str "Username: admin"],
     .log [.str "Password: admin123"],
     .log [.str "\n⚠️  Please change the default password after first login!\n"]]
  | .seedDevice => [.log [.str "Sample devices inserted for testing\n"]]

/-- The events of the first `n` steps when all of them succeed. -/
def traceAfter (env : Env) (n : Nat) : List Event :=
  (Step.all.take n).flatMap (fun k => Event.call k :: logsAfter env k)

/-! ## Concrete inputs -/

/-- An environment in which no variable is set. -/
def noEnv : Env := fun _ => none

/-- An environment in which one variable is set. -/
def oneVar (name value : String) : Env := fun n => if n = name then some value else none

/-- A `bcrypt` output. -/
def hashA : BcryptHash :=
  ⟨"$2a$10$N9qo8uLOickgx2ZMRZoMyeIjZAgcfl7p92ldGxad68LJZdL17lhWy", by decide⟩

/-- Another `bcrypt` output for the same password (another salt). -/
def hashB : BcryptHash :=
  ⟨"$2a$10$7EqJtq98hPqEX7fNZaFWoOa5ZQyQ1v8C0mJX1cT4Qw0pYb3kq1W2e", by decide⟩

/-- A world in which every call succeeds. -/
def calmWorld (h : BcryptHash) (time : Nat) : World :=
  ⟨fun _ => none, fun _ _ => h, fun _ => time⟩

/-- A world in which exactly one call fails. -/
def faultAt (k : Step) (message : String) : World :=
  ⟨fun j => if j = k then some message else none, fun _ _ => hashA, fun _ => 1000⟩

/-- A database in which an operator has changed the admin password and one setting, whose key
is stored in upper case. -/
def operatorDatabase : Database where
  users := some ⟨[⟨1, "admin", "operator-chosen-hash", Role.admin, 10⟩], 2⟩
  devices := some ⟨[⟨1, "lamp_001", "Harbour lamp", none, Status.ON, Mode.MANUAL, true, none, 15⟩], 2⟩
  sensor_data := some ⟨[], 1⟩
  control_logs := some ⟨[], 1⟩
  system_settings := some ⟨[⟨1, "LIGHT_THRESHOLD", "1500", 20⟩], 2⟩

/-- A server with a case-insensitive collation holding `operatorDatabase` under the default
name. -/
def operatorServer : Server :=
  (Server.empty Collation.caseInsensitive).setDatabase "smart_street_light" operatorDatabase

/-- A device name of 101 characters, one more than `device_name VARCHAR(100)` holds. -/
def longName : String := String.mk (List.replicate 101 'x')

/-! ## Lemmas on the statements -/

theorem Server.setDatabase_same (s : Server) (n : String) (db : Database) :
    (s.setDatabase n db).databases n = some db := by
  simp [Server.setDatabase]

theorem Server.setDatabase_other (s : Server) (n m : String) (db : Database) (h : m ≠ n) :
    (s.setDatabase n db).databases m = s.databases m := by
  simp [Server.setDatabase, h]

theorem Server.setDatabase_collation (s : Server) (n : String) (db : Database) :
    (s.setDatabase n db).collation = s.collation := rfl

theorem Server.setDatabase_setDatabase (s : Server) (n : String) (a b : Database) :
    (s.setDatabase n a).setDatabase n b = s.setDatabase n b := by
  simp only [Server.setDatabase, Server.mk.injEq, true_and]
  funext m
  by_cases h : m = n <;> simp [h]

theorem createDatabaseIfNotExists_eq (n : String) (s : Server) :
    createDatabaseIfNotExists n s = s.setDatabase n ((s.databases n).getD Database.empty) := by
  unfold createDatabaseIfNotExists
  cases h : s.databases n with
  | none => simp
  | some db =>
    cases s with
    | mk coll f =>
      simp only [Server.setDatabase, Option.getD_some, Server.mk.injEq, true_and]
      funext m
      by_cases hm : m = n
      · simp [hm] at h ⊢
        exact h
      · simp [hm]

theorem createUsersTable_eq (db : Database) :
    createUsersTable db = .ok { db with users := some (db.users.getD Table.empty) } := by
  cases db with
  | mk u d sd cl ss => cases u <;> rfl

theorem createDevicesTable_eq (db : Database) :
    createDevicesTable db = .ok { db with devices := some (db.devices.getD Table.empty) } := by
  cases db with
  | mk u d sd cl ss => cases d <;> rfl

theorem createSensorDataTable_eq (db : Database) (h : db.devices.isSome = true) :
    createSensorDataTable db =
      .ok { db with sensor_data := some (db.sensor_data.getD Table.empty) } := by
  cases db with
  | mk u d sd cl ss => cases sd <;> simp_all [createSensorDataTable]

theorem createControlLogsTable_eq (db : Database) (hd : db.devices.isSome = true)
    (hu : db.users.isSome = true) :
    createControlLogsTable db =
      .ok { db with control_logs := some (db.control_logs.getD Table.empty) } := by
  cases db with
  | mk u d sd cl ss => cases cl <;> simp_all [createControlLogsTable]

theorem createSystemSettingsTable_eq (db : Database) :
    createSystemSettingsTable db =
      .ok { db with system_settings := some (db.system_settings.getD Table.empty) } := by
  cases db with
  | mk u d sd cl ss => cases ss <;> rfl

theorem defaultSettings_fit : defaultSettings.all fitsSetting = true := by decide

theorem sampleDevice_fits :
    fitsDevice ⟨"LAMP_001", "Street Lamp 1", some "Main Street - North"⟩ = true := by decide

theorem admin_fits : "admin".length ≤ 50 := by decide

/-! ## The run in closed form -/

/-- When no call fails, the script runs every step, ends the connection and finishes. -/
theorem runInit_ok (env : Env) (w : World) (s : Server) (h : ∀ k, w.fault k = none) :
    (runInit env w s).status = 0 ∧
    (runInit env w s).trace = traceAfter env 12 ++ [Event.connectionEnd] ∧
    (runInit env w s).server = serverAfter env w s 12 := by
  have hb := (w.bcrypt "admin123" 10).length_eq
  simp [runInit, runProcess, initializeDatabase, initializeBody, tryCatchFinally, bind, JS.bind,
    h, query, createConnection, onTables, onSelectedDatabase, createDatabaseIfNotExists_eq,
    useDatabase, consoleLog, emit, bcryptHash, createUsersTable_eq, insertSettings, insertUser,
    insertDevice, insertDeviceRow, forOf, sampleDevices, endConnection, defaultSettings_fit,
    sampleDevice_fits, admin_fits, hb, traceAfter, Step.all, logsAfter, serverAfter,
    databaseAfter, provisionStep, JS.pure, createDevicesTable_eq, createSensorDataTable_eq,
    createControlLogsTable_eq, createSystemSettingsTable_eq, Server.setDatabase_same,
    Server.setDatabase_setDatabase, Server.setDatabase_collation]

/-- When call `k` is the first to fail, the script has run the steps before `k`, logs the error
and exits with status 1. -/
theorem runInit_fault (env : Env) (w : World) (s : Server) (k : Step) (message : String)
    (hk : w.fault k = some message) (hlt : ∀ j : Step, j.rank < k.rank → w.fault j = none) :
    (runInit env w s).status = 1 ∧
    (runInit env w s).trace = traceAfter env k.rank ++
      [Event.call k, Event.error [.str "Error initializing database:", .str message]] ∧
    (runInit env w s).server = serverAfter env w s k.rank := by
  have hb := (w.bcrypt "admin123" 10).length_eq
  cases k <;>
  simp [runInit, runProcess, initializeDatabase, initializeBody, tryCatchFinally, bind, JS.bind,
    hk, hlt, Step.rank, query, createConnection, onTables, onSelectedDatabase,
    createDatabaseIfNotExists_eq, useDatabase, consoleLog, consoleError, processExit, emit,
    bcryptHash, createUsersTable_eq, insertSettings, insertUser, insertDevice, insertDeviceRow,
    forOf, sampleDevices, endConnection, defaultSettings_fit, sampleDevice_fits, admin_fits, hb,
    traceAfter, Step.all, logsAfter, serverAfter, databaseAfter, provisionStep, JS.pure,
    createDevicesTable_eq, createSensorDataTable_eq, createControlLogsTable_eq,
    createSystemSettingsTable_eq, Server.setDatabase_same, Server.setDatabase_setDatabase,
    Server.setDatabase_collation]

/-- Either no call fails, or some call is the first to fail. -/
theorem World.first_fault (w : World) :
    (∀ k, w.fault k = none) ∨
    ∃ k message, w.fault k = some message ∧ ∀ j : Step, j.rank < k.rank → w.fault j = none := by
  by_cases hall : ∀ k, w.fault k = none
  · exact Or.inl hall
  · right
    have hne : ∃ k, w.fault k ≠ none := by
      by_contra hcon
      exact hall (fun k => by_contra (fun hk => hcon ⟨k, hk⟩))
    obtain ⟨k0, hk0⟩ := hne
    obtain ⟨m, hm, hmin⟩ :=
      (measure Step.rank).wf.has_min {k | w.fault k ≠ none} ⟨k0, hk0⟩
    obtain ⟨message, hmsg⟩ := Option.ne_none_iff_exists'.mp hm
    refine ⟨m, message, hmsg, fun j hj => ?_⟩
    by_contra hjn
    exact hmin j hjn hj

theorem Step.rank_lt (k : Step) : k.rank < 12 := by
  cases k <;> decide

/-- A run that exits with status 0 is a run in which no call failed. -/
theorem runInit_status_zero (env : Env) (w : World) (s : Server)
    (h : (runInit env w s).status = 0) : ∀ k, w.fault k = none := by
  rcases w.first_fault with hall | ⟨k, message, hk, hlt⟩
  · exact hall
  · have := (runInit_fault env w s k message hk hlt).1
    omega

/-- The server a run leaves behind is the server after some number of successful steps. -/
theorem runInit_server (env : Env) (w : World) (s : Server) :
    ∃ n, n ≤ 12 ∧ (runInit env w s).server = serverAfter env w s n := by
  rcases w.first_fault with hall | ⟨k, message, hk, hlt⟩
  · exact ⟨12, le_refl _, (runInit_ok env w s hall).2.2⟩
  · exact ⟨k.rank, le_of_lt k.rank_lt, (runInit_fault env w s k message hk hlt).2.2⟩

/-! ## Claims on the control flow of `initializeDatabase` -/

theorem executedSteps_logsAfter (env : Env) (k : Step) : executedSteps (logsAfter env k) = [] := by
  cases k <;> rfl

theorem executedSteps_flatMap (env : Env) (l : List Step) :
    executedSteps (l.flatMap (fun k => Event.call k :: logsAfter env k)) = l := by
  induction l with
  | nil => rfl
  | cons k l ih =>
    have h := executedSteps_logsAfter env k
    simp only [executedSteps] at ih h ⊢
    simp [List.flatMap_cons, List.filterMap_append, ih, h]

theorem executedSteps_traceAfter (env : Env) (n : Nat) :
    executedSteps (traceAfter env n) = Step.all.take n :=
  executedSteps_flatMap env _

theorem call_mem_iff (k : Step) (trace : List Event) :
    Event.call k ∈ trace ↔ k ∈ executedSteps trace := by
  induction trace with
  | nil => simp [executedSteps]
  | cons e t ih =>
    simp only [executedSteps] at ih
    cases e <;> simp_all [executedSteps, List.filterMap_cons, eq_comm]

theorem mem_take_all (j : Step) (n : Nat) (h : j ∈ Step.all.take n) : j.rank < n := by
  have key : ∀ (i : Nat) (hi : i < Step.all.length), (Step.all.get ⟨i, hi⟩).rank = i := by
    decide
  obtain ⟨i, hi, hj⟩ := List.mem_iff_getElem.mp h
  rw [List.length_take] at hi
  have hlen : i < Step.all.length := by omega
  have hi2 : i < n := by omega
  rw [List.getElem_take] at hj
  have := key i hlen
  simp only [List.get_eq_getElem] at this
  rw [hj] at this
  omega

/-- The calls issued when call `k` is the first to fail are the steps up to and including `k`. -/
theorem executedSteps_fault (env : Env) (w : World) (s : Server) (k : Step) (message : String)
    (hk : w.fault k = some message) (hlt : ∀ j : Step, j.rank < k.rank → w.fault j = none) :
    executedSteps (runInit env w s).trace = Step.all.take (k.rank + 1) := by
  rw [(runInit_fault env w s k message hk hlt).2.1]
  have h1 := executedSteps_traceAfter env k.rank
  simp only [executedSteps] at h1 ⊢
  rw [List.filterMap_append, h1]
  cases k <;> rfl

/-- C7. Fail-fast exit status: if call `k` is the first to fail, the calls issued are exactly the
steps up to and including `k` (no later step is executed), the error message is logged with
`console.error`, and the process exits with status 1; if no call fails, all twelve steps are
executed and the exit status is 0. -/
theorem initializeDatabase_fail_fast (env : Env) (w : World) (s : Server) :
    (∀ k message, w.fault k = some message →
      (∀ j : Step, j.rank < k.rank → w.fault j = none) →
      executedSteps (runInit env w s).trace = Step.all.take (k.rank + 1) ∧
      (∀ j : Step, k.rank < j.rank → Event.call j ∉ (runInit env w s).trace) ∧
      Event.error [.str "Error initializing database:", .str message]
        ∈ (runInit env w s).trace ∧
      (runInit env w s).status = 1) ∧
    ((∀ k, w.fault k = none) →
      executedSteps (runInit env w s).trace = Step.all ∧ (runInit env w s).status = 0) := by
  constructor
  · intro k message hk hlt
    obtain ⟨hst, htr, -⟩ := runInit_fault env w s k message hk hlt
    have hex := executedSteps_fault env w s k message hk hlt
    refine ⟨hex, ?_, ?_, hst⟩
    · intro j hj hmem
      rw [call_mem_iff, hex] at hmem
      have := mem_take_all j _ hmem
      omega
    · rw [htr]
      simp
  · intro hall
    obtain ⟨hst, htr, -⟩ := runInit_ok env w s hall
    refine ⟨?_, hst⟩
    rw [htr]
    have h1 := executedSteps_traceAfter env 12
    simp only [executedSteps] at h1 ⊢
    rw [List.filterMap_append, h1]
    rfl

/-- C7, at a concrete run: the `USE` statement is the first call to fail. -/
theorem initializeDatabase_fail_fast_witness :
    executedSteps (runInit noEnv (faultAt .useDatabase "Unknown database") (Server.empty Collation.binary)).trace
      = [.connect, .createDatabase, .useDatabase] ∧
    (runInit noEnv (faultAt .useDatabase "Unknown database") (Server.empty Collation.binary)).status = 1 ∧
    (runInit noEnv (calmWorld hashA 5) (Server.empty Collation.binary)).status = 0 := by
  have h := (initializeDatabase_fail_fast noEnv (faultAt .useDatabase "Unknown database")
    (Server.empty Collation.binary)).1 .useDatabase "Unknown database" rfl
    (fun j hj => by cases j <;> first | rfl | exact absurd hj (by decide))
  have h2 := (initializeDatabase_fail_fast noEnv (calmWorld hashA 5) (Server.empty Collation.binary)).2
    (fun _ => rfl)
  exact ⟨h.1, h.2.2.2, h2.2⟩

theorem databaseLine_ne (n : String) :
    ("Database '" ++ n ++ "' created or already exists") ≠
      "\n✅ Database initialization completed successfully!" := by
  intro h
  have := congrArg String.data h
  simp [String.data_append] at this

theorem completion_mem_traceAfter (env : Env) (n : Nat) (hn : n ≤ 12) :
    Event.log completionMessage ∈ traceAfter env n ↔ 11 ≤ n := by
  have hd := databaseLine_ne (databaseName env)
  have hd2 := hd.symm
  interval_cases n <;>
  simp [traceAfter, Step.all, logsAfter, completionMessage, hd, hd2]

theorem mem_before_of_split {α : Type} (A rest pre post : List α) (x m : α) (hx : x ∉ A)
    (hm : m ∈ A) (h : pre ++ x :: post = A ++ x :: rest) : m ∈ pre := by
  rcases List.append_eq_append_iff.mp h with ⟨a, hA, hcons⟩ | ⟨c, hpre, -⟩
  · cases a with
    | nil =>
      rw [hA, List.append_nil] at hm
      exact hm
    | cons y a =>
      rw [List.cons_append, List.cons.injEq] at hcons
      exact absurd (by rw [hA, hcons.1]; simp) hx
  · rw [hpre]
    exact List.mem_append_left _ hm

theorem traceAfter_succ_seedDevice (env : Env) :
    traceAfter env 12 = traceAfter env 11 ++ Event.call .seedDevice :: logsAfter env .seedDevice := by
  simp [traceAfter, Step.all]

/-- C10. Placement of the completion message: it is logged exactly when every call up to and
including the admin seed has succeeded; it comes before the sample-device insert in the trace;
there is a run (the sample-device insert fails) that logs it and exits with status 1; and every
run that exits with status 0 has logged it. -/
theorem completion_message_placement (env : Env) (w : World) (s : Server) :
    (Event.log [.str "\n✅ Database initialization completed successfully!"]
        ∈ (runInit env w s).trace ↔
      ∀ j : Step, j.rank ≤ Step.seedAdmin.rank → w.fault j = none) ∧
    (∀ pre post, (runInit env w s).trace = pre ++ Event.call .seedDevice :: post →
      Event.log [.str "\n✅ Database initialization completed successfully!"] ∈ pre) ∧
    (∃ w1 : World, w1.fault .seedDevice ≠ none ∧
      Event.log [.str "\n✅ Database initialization completed successfully!"]
        ∈ (runInit env w1 s).trace ∧
      Event.call .seedDevice ∈ (runInit env w1 s).trace ∧ (runInit env w1 s).status = 1) ∧
    ((runInit env w s).status = 0 →
      Event.log [.str "\n✅ Database initialization completed successfully!"]
        ∈ (runInit env w s).trace) := by
  have hlit : Event.log [.str "\n✅ Database initialization completed successfully!"] =
      Event.log completionMessage := rfl
  simp only [hlit]
  have hfull : ∀ w0 : World, (∀ k, w0.fault k = none) →
      Event.log completionMessage ∈ (runInit env w0 s).trace := by
    intro w0 hall
    rw [(runInit_ok env w0 s hall).2.1]
    exact List.mem_append_left _ ((completion_mem_traceAfter env 12 (le_refl _)).mpr (by omega))
  have hfault : ∀ (w0 : World) (k : Step) (message : String), w0.fault k = some message →
      (∀ j : Step, j.rank < k.rank → w0.fault j = none) →
      (Event.log completionMessage ∈ (runInit env w0 s).trace ↔ 11 ≤ k.rank) := by
    intro w0 k message hk hlt
    rw [(runInit_fault env w0 s k message hk hlt).2.1, List.mem_append,
      completion_mem_traceAfter env k.rank (le_of_lt k.rank_lt)]
    simp [completionMessage]
  have hnot : Event.call Step.seedDevice ∉ traceAfter env 11 := by
    rw [call_mem_iff, executedSteps_traceAfter]
    decide
  have hin : Event.log completionMessage ∈ traceAfter env 11 :=
    (completion_mem_traceAfter env 11 (by omega)).mpr (le_refl _)
  have h10 : Step.seedAdmin.rank = 10 := rfl
  refine ⟨?_, ?_, ?_, ?_⟩
  · rcases w.first_fault with hall | ⟨k, message, hk, hlt⟩
    · exact ⟨fun _ j _ => hall j, fun _ => hfull w hall⟩
    · rw [hfault w k message hk hlt]
      constructor
      · intro h11 j hj
        exact hlt j (by rw [h10] at hj; omega)
      · intro hnone
        by_contra hk11
        have := hnone k (by rw [h10]; omega)
        rw [hk] at this
        exact Option.noConfusion this
  · intro pre post hsplit
    rcases w.first_fault with hall | ⟨k, message, hk, hlt⟩
    · rw [(runInit_ok env w s hall).2.1, traceAfter_succ_seedDevice, List.append_assoc,
        List.cons_append] at hsplit
      exact mem_before_of_split _ _ _ _ _ _ hnot hin hsplit.symm
    · have hmem : Event.call Step.seedDevice ∈ (runInit env w s).trace := by
        rw [hsplit]
        simp
      have hex := executedSteps_fault env w s k message hk hlt
      rw [call_mem_iff, hex] at hmem
      have hr := mem_take_all _ _ hmem
      have hk11 : k = Step.seedDevice := by
        cases k <;> simp [Step.rank] at hr ⊢
      subst hk11
      rw [(runInit_fault env w s _ message hk hlt).2.1] at hsplit
      exact mem_before_of_split _ _ _ _ _ _ hnot hin hsplit.symm
  · refine ⟨⟨fun j => if j = Step.seedDevice then some "Lost connection" else none, w.bcrypt,
      w.now⟩, ?_⟩
    have hk : (⟨fun j => if j = Step.seedDevice then some "Lost connection" else none, w.bcrypt,
      w.now⟩ : World).fault Step.seedDevice = some "Lost connection" := by simp
    have hlt : ∀ j : Step, j.rank < Step.seedDevice.rank →
        (⟨fun j => if j = Step.seedDevice then some "Lost connection" else none, w.bcrypt,
          w.now⟩ : World).fault j = none := by
      intro j hj
      cases j <;> first | rfl | exact absurd hj (by decide)
    refine ⟨by rw [hk]; simp, (hfault _ _ _ hk hlt).mpr (by decide), ?_,
      (runInit_fault env _ s _ _ hk hlt).1⟩
    rw [(runInit_fault env _ s _ _ hk hlt).2.1]
    simp
  · intro h0
    exact hfull w (runInit_status_zero env w s h0)

/-- C10, at a concrete run: a run that exits with status 0 has logged the completion message. -/
theorem completion_message_placement_witness :
    (runInit noEnv (calmWorld hashA 5) (Server.empty Collation.binary)).status = 0 ∧
    Event.log [.str "\n✅ Database initialization completed successfully!"]
      ∈ (runInit noEnv (calmWorld hashA 5) (Server.empty Collation.binary)).trace :=
  have h0 : (runInit noEnv (calmWorld hashA 5) (Server.empty Collation.binary)).status = 0 :=
    (runInit_ok noEnv (calmWorld hashA 5) (Server.empty Collation.binary) (fun _ => rfl)).1
  ⟨h0, (completion_message_placement noEnv (calmWorld hashA 5) (Server.empty Collation.binary)).2.2.2 h0⟩

/-! ## Where the code departs from its own intent -/

/-- C6. The connection is not ended on the failure path: when the connect call succeeds and the
`CREATE DATABASE` statement fails, the `catch` block logs the error and calls `process.exit(1)`,
so the `finally` block with `connection.end()` never runs; on the success path it does run. -/
theorem connection_not_ended_on_failure :
    (runInit noEnv (faultAt .createDatabase "Access denied") (Server.empty Collation.binary)).trace =
      [Event.call .connect,
       Event.log [.str "Connected to MySQL server"],
       Event.call .createDatabase,
       Event.error [.str "Error initializing database:", .str "Access denied"]] ∧
    Event.connectionEnd ∉ (runInit noEnv (faultAt .createDatabase "Access denied")
      (Server.empty Collation.binary)).trace ∧
    (runInit noEnv (faultAt .createDatabase "Access denied") (Server.empty Collation.binary)).status = 1 ∧
    Event.connectionEnd ∈ (runInit noEnv (calmWorld hashA 5) (Server.empty Collation.binary)).trace := by
  refine ⟨by decide, by decide, by decide, ?_⟩
  rw [(runInit_ok noEnv (calmWorld hashA 5) (Server.empty Collation.binary) (fun _ => rfl)).2.1]
  simp

/-- C9. The health check logs the raw environment variables, not the options of the pool: with
no variable set the pool is configured with `smart_street_light`, `127.0.0.1`, `3306` and `root`,
while the success line reports `undefined` as the database and the failure lines report
`undefined` as host, port and user.  In both cases the check completes normally. -/
theorem health_check_logs_raw_environment :
    (runTestConnection noEnv none (Server.empty Collation.binary)).trace =
      [Event.getConnection,
       Event.log [.str "✅ Database connected successfully to", .undefined],
       Event.release] ∧
    (runTestConnection noEnv none (Server.empty Collation.binary)).status = 0 ∧
    (poolOptions noEnv).database = "smart_street_light" ∧
    (runTestConnection noEnv (some "connect ECONNREFUSED") (Server.empty Collation.binary)).trace =
      [Event.getConnection,
       Event.error [.str "❌ Database connection failed:", .str "connect ECONNREFUSED"],
       Event.error [.str "Host:", .undefined],
       Event.error [.str "Port:", .undefined],
       Event.error [.str "User:", .undefined],
       Event.error
         [.str "Please ensure MySQL is running and credentials in .env are correct"]] ∧
    (runTestConnection noEnv (some "connect ECONNREFUSED") (Server.empty Collation.binary)).status = 0 ∧
    (poolOptions noEnv).host = "127.0.0.1" ∧
    (poolOptions noEnv).port = .int 3306 ∧
    (poolOptions noEnv).user = "root" := by
  decide

/-! ## Pool options -/

theorem radixDigit_digitChar (d : Nat) (h : d < 10) :
    radixDigit 10 (Nat.digitChar d) = some d := by
  interval_cases d <;> decide

theorem leadingDigits_map (ds : List Nat) (h : ∀ d ∈ ds, d < 10) :
    leadingDigits 10 (ds.map Nat.digitChar) = ds := by
  induction ds with
  | nil => rfl
  | cons d ds ih =>
    have hd : d < 10 := h d (by simp)
    have ih1 := ih (fun e he => h e (by simp [he]))
    simp [leadingDigits, radixDigit_digitChar d hd, ih1]

/-- Reading a non-empty list of decimal digits gives the number they denote. -/
theorem parseInt_digits (ds : List Nat) (h : ∀ d ∈ ds, d < 10) (hne : ds ≠ []) :
    parseInt (some (String.mk (ds.map Nat.digitChar))) =
      if ds.foldl (fun acc d => acc * 10 + d) 0 < 2 ^ 53 then
        .int ((ds.foldl (fun acc d => acc * 10 + d) 0 : Nat) : Int)
      else .rounded false := by
  cases ds with
  | nil => exact absurd rfl hne
  | cons d rest =>
    have hd : d < 10 := h d (by simp)
    have hall := leadingDigits_map (d :: rest) h
    interval_cases d
    · cases rest with
      | nil => decide
      | cons e rest2 =>
        have he : e < 10 := h e (by simp)
        interval_cases e <;>
        · simp [Nat.digitChar] at hall
          simp [parseInt, String.toList, isStrWhiteSpaceChar, Nat.digitChar, hall]
    all_goals
      simp [Nat.digitChar] at hall
      simp [parseInt, String.toList, isStrWhiteSpaceChar, Nat.digitChar, hall]

/-- Reading a minus sign followed by a non-empty list of decimal digits gives the opposite of the
number they denote. -/
theorem parseInt_minus_digits (ds : List Nat) (h : ∀ d ∈ ds, d < 10) (hne : ds ≠ []) :
    parseInt (some (String.mk ('-' :: ds.map Nat.digitChar))) =
      if ds.foldl (fun acc d => acc * 10 + d) 0 < 2 ^ 53 then
        .int (-((ds.foldl (fun acc d => acc * 10 + d) 0 : Nat) : Int))
      else .rounded true := by
  cases ds with
  | nil => exact absurd rfl hne
  | cons d rest =>
    have hd : d < 10 := h d (by simp)
    have hall := leadingDigits_map (d :: rest) h
    interval_cases d
    · cases rest with
      | nil => decide
      | cons e rest2 =>
        have he : e < 10 := h e (by simp)
        interval_cases e <;>
        · simp [Nat.digitChar] at hall
          simp [parseInt, String.toList, isStrWhiteSpaceChar, Nat.digitChar, hall]
    all_goals
      simp [Nat.digitChar] at hall
      simp [parseInt, String.toList, isStrWhiteSpaceChar, Nat.digitChar, hall]

/-- The decimal numeral of a number is a non-empty list of decimal digits denoting it. -/
theorem toDigitsCore_digits (fuel : Nat) :
    ∀ (n : Nat) (acc : List Char), n < fuel →
      ∃ ds : List Nat, ds ≠ [] ∧ (∀ d ∈ ds, d < 10) ∧
        (∀ a : Nat, ds.foldl (fun acc d => acc * 10 + d) a = a * 10 ^ ds.length + n) ∧
        Nat.toDigitsCore 10 fuel n acc = ds.map Nat.digitChar ++ acc := by
  induction fuel with
  | zero => intro n acc h; omega
  | succ fuel ih =>
    intro n acc h
    unfold Nat.toDigitsCore
    by_cases h0 : n / 10 = 0
    · refine ⟨[n % 10], by simp, ?_, ?_, ?_⟩
      · intro d hd
        simp only [List.mem_singleton] at hd
        omega
      · intro a
        simp only [List.foldl_cons, List.foldl_nil, List.length_singleton, pow_one]
        omega
      · simp [h0]
    · have hlt : n / 10 < fuel := by omega
      obtain ⟨ds, hne, hdig, hval, heq⟩ := ih (n / 10) (Nat.digitChar (n % 10) :: acc) hlt
      refine ⟨ds ++ [n % 10], by simp, ?_, ?_, ?_⟩
      · intro d hd
        rcases List.mem_append.mp hd with hd | hd
        · exact hdig d hd
        · simp only [List.mem_singleton] at hd
          omega
      · intro a
        rw [List.foldl_append, hval a]
        simp only [List.foldl_cons, List.foldl_nil, List.length_append, List.length_singleton,
          pow_succ]
        have := Nat.div_add_mod n 10
        nlinarith
      · simp [h0, heq]

theorem parseInt_toString (n : Nat) (hn : n < 2 ^ 53) :
    parseInt (some (toString n)) = .int (n : Int) := by
  obtain ⟨ds, hne, hdig, hval, heq⟩ := toDigitsCore_digits (n + 1) n [] (Nat.lt_succ_self n)
  have hs : toString n = String.mk (ds.map Nat.digitChar) := by
    show Nat.repr n = _
    simp [Nat.repr, Nat.toDigits, heq, List.asString]
  have hv : ds.foldl (fun acc d => acc * 10 + d) 0 = n := by
    rw [hval 0]
    simp
  rw [hs, parseInt_digits ds hdig hne, hv, if_pos hn]

/-- The decimal numeral of an integer below `2 ^ 53` in absolute value is read as that integer. -/
theorem parseInt_toString_int (n : Int) (hn : |n| < 2 ^ 53) :
    parseInt (some (toString n)) = .int n := by
  cases n with
  | ofNat m =>
    have hm : m < 2 ^ 53 := by
      have : |(Int.ofNat m)| = (m : Int) := abs_of_nonneg (Int.ofNat_nonneg m)
      rw [this] at hn
      exact_mod_cast hn
    exact parseInt_toString m hm
  | negSucc m =>
    obtain ⟨ds, hne, hdig, hval, heq⟩ :=
      toDigitsCore_digits (m + 1 + 1) (m + 1) [] (Nat.lt_succ_self _)
    have hs : toString (Int.negSucc m) = String.mk ('-' :: ds.map Nat.digitChar) := by
      show "-" ++ Nat.repr (m + 1) = _
      simp only [Nat.repr, Nat.toDigits, heq, List.asString, List.append_nil]
      rfl
    have hv : ds.foldl (fun acc d => acc * 10 + d) 0 = m + 1 := by
      rw [hval 0]
      simp
    have hm : m + 1 < 2 ^ 53 := by
      have : |Int.negSucc m| = ((m + 1 : Nat) : Int) := by
        rw [abs_of_neg (Int.negSucc_lt_zero m), Int.neg_negSucc]
      rw [this] at hn
      exact_mod_cast hn
    rw [hs, parseInt_minus_digits ds hdig hne, hv, if_pos hm]
    simp [Int.negSucc_eq]

/-- C8, as the code has it.  Host, user and database are the value of their variable when it is
set to a non-empty string and the default when it is unset or empty; the password is the value
of `DB_PASSWORD` whenever it is set; the port is the integer `DB_PORT` denotes when that is the
decimal numeral of a non-zero integer below `2 ^ 53` in absolute value, and 3306 when the
variable is unset or `parseInt` reads `NaN` or zero from it; the pool bounds are constants. -/
theorem poolOptions_from_environment (env : Env) :
    (∀ v, env "DB_HOST" = some v → v ≠ "" → (poolOptions env).host = v) ∧
    (env "DB_HOST" = none ∨ env "DB_HOST" = some "" → (poolOptions env).host = "127.0.0.1") ∧
    (∀ v, env "DB_USER" = some v → v ≠ "" → (poolOptions env).user = v) ∧
    (env "DB_USER" = none ∨ env "DB_USER" = some "" → (poolOptions env).user = "root") ∧
    (∀ v, env "DB_PASSWORD" = some v → (poolOptions env).password = v) ∧
    (env "DB_PASSWORD" = none → (poolOptions env).password = "") ∧
    (∀ v, env "DB_NAME" = some v → v ≠ "" → (poolOptions env).database = v) ∧
    (env "DB_NAME" = none ∨ env "DB_NAME" = some "" →
      (poolOptions env).database = "smart_street_light") ∧
    (∀ n : Int, n ≠ 0 → |n| < 2 ^ 53 → env "DB_PORT" = some (toString n) →
      (poolOptions env).port = .int n) ∧
    (env "DB_PORT" = none ∨ parseInt (env "DB_PORT") = .nan ∨
      parseInt (env "DB_PORT") = .int 0 → (poolOptions env).port = .int 3306) ∧
    (poolOptions env).connectionLimit = 10 ∧
    (poolOptions env).waitForConnections = true ∧
    (poolOptions env).queueLimit = 0 ∧
    (poolOptions env).enableKeepAlive = true := by
  refine ⟨?_, ?_, ?_, ?_, ?_, ?_, ?_, ?_, ?_, ?_, rfl, rfl, rfl, rfl⟩
  · intro v hv hne
    simp [poolOptions, envOr, hv, hne]
  · rintro (h | h) <;> simp [poolOptions, envOr, h]
  · intro v hv hne
    simp [poolOptions, envOr, hv, hne]
  · rintro (h | h) <;> simp [poolOptions, envOr, h]
  · intro v hv
    by_cases hne : v = "" <;> simp [poolOptions, envOr, hv, hne]
  · intro h
    simp [poolOptions, envOr, h]
  · intro v hv hne
    simp [poolOptions, envOr, hv, hne]
  · rintro (h | h) <;> simp [poolOptions, envOr, h]
  · intro n hn hlt hv
    simp [poolOptions, parseIntOr, hv, parseInt_toString_int n hlt, hn]
  · rintro (h | h | h)
    · have hnan : parseInt none = .nan := by decide
      simp [poolOptions, parseIntOr, h, hnan]
    · simp [poolOptions, parseIntOr, h]
    · simp [poolOptions, parseIntOr, h]

/-- C8, at concrete environments. -/
theorem poolOptions_from_environment_witness :
    (poolOptions (oneVar "DB_HOST" "db.example.org")).host = "db.example.org" ∧
    (poolOptions (oneVar "DB_PORT" "3307")).port = .int 3307 ∧
    (poolOptions noEnv).port = .int 3306 :=
  ⟨(poolOptions_from_environment (oneVar "DB_HOST" "db.example.org")).1 "db.example.org"
      (by decide) (by decide),
   (poolOptions_from_environment (oneVar "DB_PORT" "3307")).2.2.2.2.2.2.2.2.1 3307
      (by decide) (by decide) (by decide),
   (poolOptions_from_environment noEnv).2.2.2.2.2.2.2.2.2.1 (Or.inl rfl)⟩

/-- C8 as stated fails: with `DB_HOST` set to the empty string the host is not the value of the
variable but the default; with `DB_PORT` set to `0` the port is not 0 but 3306; and with
`DB_PORT` set to `9007199254740993` (`2 ^ 53 + 1`) the port is not that integer but a double
rounded from it. -/
theorem poolOptions_set_but_falsy :
    oneVar "DB_HOST" "" "DB_HOST" = some "" ∧
    (poolOptions (oneVar "DB_HOST" "")).host = "127.0.0.1" ∧
    (poolOptions (oneVar "DB_HOST" "")).host ≠ "" ∧
    oneVar "DB_PORT" "0" "DB_PORT" = some "0" ∧
    (poolOptions (oneVar "DB_PORT" "0")).port = .int 3306 ∧
    oneVar "DB_PORT" "9007199254740993" "DB_PORT" = some (toString (2 ^ 53 + 1 : Int)) ∧
    (poolOptions (oneVar "DB_PORT" "9007199254740993")).port = .rounded false ∧
    (poolOptions (oneVar "DB_PORT" "9007199254740993")).port ≠ .int (2 ^ 53 + 1) := by
  decide

/-! ## Claims on the rows the initializer leaves behind -/

theorem serverAfter_target (env : Env) (w : World) (s : Server) (n : Nat) :
    (serverAfter env w s n).databases (databaseName env) =
      if n ≤ 1 then s.databases (databaseName env)
      else some (databaseAfter s.collation w n
        ((s.databases (databaseName env)).getD Database.empty)) := by
  unfold serverAfter
  split <;> simp [Server.setDatabase_same]

theorem serverAfter_other (env : Env) (w : World) (s : Server) (n : Nat) (m : String)
    (hm : m ≠ databaseName env) : (serverAfter env w s n).databases m = s.databases m := by
  unfold serverAfter
  split
  · rfl
  · exact Server.setDatabase_other _ _ _ _ hm

/-- A property of the target database that every successful step keeps holds after any number of
steps. -/
theorem databaseAfter_induction (coll : Collation) (w : World) (I : Database → Prop)
    (hstep : ∀ k db, I db → I (provisionStep coll w k db)) (n : Nat) (db : Database)
    (h : I db) : I (databaseAfter coll w n db) := by
  unfold databaseAfter
  generalize Step.all.take n = l
  induction l generalizing db with
  | nil => exact h
  | cons k l ih => exact ih _ (hstep k db h)

theorem usersRows_getD (o : Option Database) :
    usersRows (some (o.getD Database.empty)) = usersRows o := by
  cases o <;> rfl

theorem settingsRows_getD (o : Option Database) :
    settingsRows (some (o.getD Database.empty)) = settingsRows o := by
  cases o <;> rfl

theorem provisionStep_usersRows (coll : Collation) (w : World) (k : Step) (db : Database)
    (hadmin : ∃ u ∈ usersRows (some db), u.username = "admin") :
    usersRows (some (provisionStep coll w k db)) = usersRows (some db) := by
  obtain ⟨u, hu, hname⟩ := hadmin
  cases hdb : db.users with
  | none => simp [usersRows, hdb] at hu
  | some t =>
    have hu2 : u ∈ t.rows := by simpa [usersRows, hdb] using hu
    have hany : t.rows.any
        (fun r => decide (coll.weight r.username = coll.weight "admin")) = true :=
      List.any_eq_true.mpr ⟨u, hu2, by simp [hname]⟩
    cases k <;> simp [provisionStep, usersRows, hdb, upsertUser, hany]

/-- C2. The admin seed never overwrites a password: if the `users` table of the target database
holds a row with username `admin` (with any hash), then after a run of `initializeDatabase`,
whatever hash `bcrypt` produces and whichever call fails, the rows of `users` are the same rows:
the admin row keeps its hash and role and no second admin row is added. -/
theorem admin_seed_keeps_password (env : Env) (w : World) (s : Server) (u : UserRow)
    (hu : u ∈ usersRows (s.databases (databaseName env))) (hname : u.username = "admin") :
    usersRows ((runInit env w s).server.databases (databaseName env)) =
      usersRows (s.databases (databaseName env)) ∧
    u ∈ usersRows ((runInit env w s).server.databases (databaseName env)) ∧
    (usersRows ((runInit env w s).server.databases (databaseName env))).countP
        (fun r => decide (r.username = "admin")) =
      (usersRows (s.databases (databaseName env))).countP
        (fun r => decide (r.username = "admin")) := by
  have key : usersRows ((runInit env w s).server.databases (databaseName env)) =
      usersRows (s.databases (databaseName env)) := by
    obtain ⟨n, -, hn⟩ := runInit_server env w s
    rw [hn, serverAfter_target]
    split
    · rfl
    · have hI := databaseAfter_induction s.collation w
        (fun db => usersRows (some db) = usersRows (s.databases (databaseName env)))
        (fun k db hdb => by
          have hdb1 : usersRows (some db) = usersRows (s.databases (databaseName env)) := hdb
          show usersRows (some (provisionStep s.collation w k db)) = _
          rw [provisionStep_usersRows s.collation w k db ⟨u, by rw [hdb1]; exact hu, hname⟩]
          exact hdb1)
        n ((s.databases (databaseName env)).getD Database.empty) (usersRows_getD _)
      exact hI
  refine ⟨key, ?_, ?_⟩
  · rw [key]
    exact hu
  · rw [key]

/-- C2, at a concrete server: the operator has changed the admin hash, the run seeds with a fresh
hash, and the operator's row is still the only row. -/
theorem admin_seed_keeps_password_witness :
    usersRows ((runInit noEnv (calmWorld hashB 99) operatorServer).server.databases
        (databaseName noEnv)) =
      [⟨1, "admin", "operator-chosen-hash", Role.admin, 10⟩] :=
  (admin_seed_keeps_password noEnv (calmWorld hashB 99) operatorServer
    ⟨1, "admin", "operator-chosen-hash", Role.admin, 10⟩ (by decide) rfl).1.trans (by decide)

theorem settingValue_none_iff (coll : Collation) (rows : List SettingRow) (key : String) :
    settingValue coll rows key = none ↔
      rows.any (fun r => decide (coll.weight r.setting_key = coll.weight key)) = false := by
  simp [settingValue, List.find?_eq_none]

theorem settingValue_append_left (coll : Collation) (rows more : List SettingRow)
    (key v : String) (h : settingValue coll rows key = some v) :
    settingValue coll (rows ++ more) key = some v := by
  simp only [settingValue, Option.map_eq_some'] at h ⊢
  obtain ⟨r, hr, hv⟩ := h
  exact ⟨r, by rw [List.find?_append, hr]; rfl, hv⟩

/-- One row of the settings statement: the rows already present stay, and a row is added only
for a key that no row held. -/
theorem upsertSetting_rows (coll : Collation) (now : Nat) (t : Table SettingRow)
    (kv : String × String) :
    (settingValue coll t.rows kv.1 ≠ none ∧ (upsertSetting coll now t kv).rows = t.rows) ∨
    (settingValue coll t.rows kv.1 = none ∧
      (upsertSetting coll now t kv).rows = t.rows ++ [⟨t.autoIncrement, kv.1, kv.2, now⟩]) := by
  unfold upsertSetting
  by_cases h : t.rows.any
      (fun r => decide (coll.weight r.setting_key = coll.weight kv.1)) = true
  · left
    refine ⟨?_, by simp only [h, if_true]⟩
    rw [Ne, settingValue_none_iff, h]
    simp
  · right
    simp only [Bool.not_eq_true] at h
    exact ⟨(settingValue_none_iff _ _ _).mpr h, by simp only [h, Bool.false_eq_true, if_false]⟩

theorem settingValue_of_append_none (coll : Collation) (rows more : List SettingRow)
    (key : String) (h : settingValue coll (rows ++ more) key = none) :
    settingValue coll rows key = none := by
  rw [settingValue_none_iff] at h ⊢
  rw [List.any_append, Bool.or_eq_false_iff] at h
  exact h.1

theorem upsertSetting_keeps (coll : Collation) (now : Nat) (t : Table SettingRow)
    (kv : String × String) (key v : String) (h : settingValue coll t.rows key = some v) :
    settingValue coll (upsertSetting coll now t kv).rows key = some v := by
  rcases upsertSetting_rows coll now t kv with ⟨-, hr⟩ | ⟨-, hr⟩
  · rw [hr]
    exact h
  · rw [hr]
    exact settingValue_append_left _ _ _ _ _ h

theorem upsertSetting_inserts (coll : Collation) (now : Nat) (t : Table SettingRow)
    (kv : String × String) (h : settingValue coll t.rows kv.1 = none) :
    settingValue coll (upsertSetting coll now t kv).rows kv.1 = some kv.2 := by
  rcases upsertSetting_rows coll now t kv with ⟨hne, -⟩ | ⟨-, hr⟩
  · exact absurd h hne
  · rw [hr]
    simp only [settingValue, Option.map_eq_none', List.find?_eq_none] at h
    simp only [settingValue, List.find?_append]
    rw [List.find?_eq_none.mpr h]
    simp

theorem upsertSetting_other (coll : Collation) (now : Nat) (t : Table SettingRow)
    (kv : String × String) (key : String) (h : settingValue coll t.rows key = none)
    (hne : coll.weight kv.1 ≠ coll.weight key) :
    settingValue coll (upsertSetting coll now t kv).rows key = none := by
  rcases upsertSetting_rows coll now t kv with ⟨-, hr⟩ | ⟨-, hr⟩
  · rw [hr]
    exact h
  · rw [hr, settingValue_none_iff] at *
    simp [List.any_append, h, hne]

/-- No collation identifies two of the three default keys. -/
theorem defaultKeys_apart (coll : Collation) :
    coll.weight "auto_mode_enabled" ≠ coll.weight "light_threshold" ∧
    coll.weight "auto_mode_enabled" ≠ coll.weight "polling_interval" ∧
    coll.weight "light_threshold" ≠ coll.weight "polling_interval" :=
  ⟨fun h => absurd (coll.plain _ _ (by decide) (by decide) h) (by decide),
   fun h => absurd (coll.plain _ _ (by decide) (by decide) h) (by decide),
   fun h => absurd (coll.plain _ _ (by decide) (by decide) h) (by decide)⟩

/-- The settings statement on a table: each default key that no row held is now stored with its
default value. -/
theorem seedSettings_defaults (coll : Collation) (now : Nat) (t : Table SettingRow) :
    (settingValue coll t.rows "auto_mode_enabled" = none →
      settingValue coll (defaultSettings.foldl (upsertSetting coll now) t).rows
        "auto_mode_enabled" = some "true") ∧
    (settingValue coll t.rows "light_threshold" = none →
      settingValue coll (defaultSettings.foldl (upsertSetting coll now) t).rows
        "light_threshold" = some "2000") ∧
    (settingValue coll t.rows "polling_interval" = none →
      settingValue coll (defaultSettings.foldl (upsertSetting coll now) t).rows
        "polling_interval" = some "5000") := by
  obtain ⟨h12, h13, h23⟩ := defaultKeys_apart coll
  simp only [defaultSettings, List.foldl_cons, List.foldl_nil]
  refine ⟨fun h => ?_, fun h => ?_, fun h => ?_⟩
  · exact upsertSetting_keeps _ _ _ _ _ _ (upsertSetting_keeps _ _ _ _ _ _
      (upsertSetting_inserts coll now t ("auto_mode_enabled", "true") h))
  · exact upsertSetting_keeps _ _ _ _ _ _
      (upsertSetting_inserts coll now _ ("light_threshold", "2000")
        (upsertSetting_other coll now t _ _ h h12))
  · exact upsertSetting_inserts coll now _ ("polling_interval", "5000")
      (upsertSetting_other coll now _ _ _ (upsertSetting_other coll now t _ _ h h13) h23)

/-- The settings statement on a table: the rows already present stay, in place; each added row is
a default pair under a key that no row held. -/
theorem seedSettings_rows (coll : Collation) (now : Nat) (before : List SettingRow)
    (values : List (String × String)) (hv : ∀ kv ∈ values, kv ∈ defaultSettings) :
    ∀ t : Table SettingRow,
      (∃ added : List SettingRow, t.rows = before ++ added ∧
        ∀ r ∈ added, (r.setting_key, r.setting_value) ∈ defaultSettings ∧
          settingValue coll before r.setting_key = none) →
      ∃ added : List SettingRow,
        (values.foldl (upsertSetting coll now) t).rows = before ++ added ∧
        ∀ r ∈ added, (r.setting_key, r.setting_value) ∈ defaultSettings ∧
          settingValue coll before r.setting_key = none := by
  induction values with
  | nil => intro t h; exact h
  | cons kv values ih =>
    intro t ⟨added, hrows, hadded⟩
    apply ih (fun x hx => hv x (by simp [hx]))
    rcases upsertSetting_rows coll now t kv with ⟨-, hr⟩ | ⟨hnone, hr⟩
    · exact ⟨added, by rw [hr, hrows], hadded⟩
    · refine ⟨added ++ [⟨t.autoIncrement, kv.1, kv.2, now⟩],
        by rw [hr, hrows, List.append_assoc], ?_⟩
      intro r hr2
      rcases List.mem_append.mp hr2 with hr3 | hr3
      · exact hadded r hr3
      · simp only [List.mem_singleton] at hr3
        subst hr3
        refine ⟨hv kv (by simp), ?_⟩
        rw [hrows] at hnone
        exact settingValue_of_append_none _ _ _ _ hnone

theorem provisionStep_settingsRows (coll : Collation) (w : World) (k : Step) (db : Database)
    (before : List SettingRow)
    (h : ∃ added : List SettingRow, settingsRows (some db) = before ++ added ∧
        ∀ r ∈ added, (r.setting_key, r.setting_value) ∈ defaultSettings ∧
          settingValue coll before r.setting_key = none) :
    ∃ added : List SettingRow,
      settingsRows (some (provisionStep coll w k db)) = before ++ added ∧
        ∀ r ∈ added, (r.setting_key, r.setting_value) ∈ defaultSettings ∧
          settingValue coll before r.setting_key = none := by
  have hrows : (db.system_settings.getD Table.empty).rows = settingsRows (some db) := by
    cases hss : db.system_settings <;> simp [settingsRows, hss, Table.empty]
  cases k
  case seedSettings =>
    have := seedSettings_rows coll (w.now .seedSettings) before defaultSettings
      (fun _ hkv => hkv) (db.system_settings.getD Table.empty) (by rw [hrows]; exact h)
    simpa [provisionStep, settingsRows] using this
  case createSystemSettings =>
    rw [← hrows] at h
    simpa [provisionStep, settingsRows] using h
  all_goals simpa [provisionStep, settingsRows] using h

/-- C3. The settings seed does not overwrite operator values.  A key has a row when some row
holds it under the collation of the server, which is how the unique index and a `SELECT` by key
compare.  After a run of `initializeDatabase` (whichever call fails), the rows of
`system_settings` are the rows that were there, unchanged and in place, followed by added rows;
an added row is one of the three default pairs, under a key that had no row.  Hence every key
that had a value keeps it, and rows under other keys are unchanged.  After a run that exits with
status 0, each of the three default keys that had no row is stored with its default value. -/
theorem settings_seed_keeps_operator_values (env : Env) (w : World) (s : Server) :
    (∃ added : List SettingRow,
      settingsRows ((runInit env w s).server.databases (databaseName env)) =
        settingsRows (s.databases (databaseName env)) ++ added ∧
      ∀ r ∈ added,
        (r.setting_key, r.setting_value) ∈
          [("auto_mode_enabled", "true"), ("light_threshold", "2000"),
           ("polling_interval", "5000")] ∧
        settingValue s.collation (settingsRows (s.databases (databaseName env)))
          r.setting_key = none) ∧
    (∀ key v,
      settingValue s.collation (settingsRows (s.databases (databaseName env))) key = some v →
      settingValue s.collation
        (settingsRows ((runInit env w s).server.databases (databaseName env))) key = some v) ∧
    ((settingsRows ((runInit env w s).server.databases (databaseName env))).filter
        (fun r => decide (r.setting_key ∉ ["auto_mode_enabled", "light_threshold",
          "polling_interval"])) =
      (settingsRows (s.databases (databaseName env))).filter
        (fun r => decide (r.setting_key ∉ ["auto_mode_enabled", "light_threshold",
          "polling_interval"]))) ∧
    ((runInit env w s).status = 0 →
      (settingValue s.collation (settingsRows (s.databases (databaseName env)))
          "auto_mode_enabled" = none →
        settingValue s.collation
          (settingsRows ((runInit env w s).server.databases (databaseName env)))
          "auto_mode_enabled" = some "true") ∧
      (settingValue s.collation (settingsRows (s.databases (databaseName env)))
          "light_threshold" = none →
        settingValue s.collation
          (settingsRows ((runInit env w s).server.databases (databaseName env)))
          "light_threshold" = some "2000") ∧
      (settingValue s.collation (settingsRows (s.databases (databaseName env)))
          "polling_interval" = none →
        settingValue s.collation
          (settingsRows ((runInit env w s).server.databases (databaseName env)))
          "polling_interval" = some "5000")) := by
  have hlit : [("auto_mode_enabled", "true"), ("light_threshold", "2000"),
      ("polling_interval", "5000")] = defaultSettings := rfl
  rw [hlit]
  have key : ∃ added : List SettingRow,
      settingsRows ((runInit env w s).server.databases (databaseName env)) =
        settingsRows (s.databases (databaseName env)) ++ added ∧
      ∀ r ∈ added, (r.setting_key, r.setting_value) ∈ defaultSettings ∧
        settingValue s.collation (settingsRows (s.databases (databaseName env)))
          r.setting_key = none := by
    obtain ⟨n, -, hn⟩ := runInit_server env w s
    rw [hn, serverAfter_target]
    split
    · exact ⟨[], by simp, by simp⟩
    · exact databaseAfter_induction s.collation w
        (fun db => ∃ added : List SettingRow,
          settingsRows (some db) = settingsRows (s.databases (databaseName env)) ++ added ∧
          ∀ r ∈ added, (r.setting_key, r.setting_value) ∈ defaultSettings ∧
            settingValue s.collation (settingsRows (s.databases (databaseName env)))
              r.setting_key = none)
        (fun k db hdb => provisionStep_settingsRows s.collation w k db _ hdb)
        n _ ⟨[], by rw [settingsRows_getD]; simp, by simp⟩
  refine ⟨key, ?_, ?_, ?_⟩
  · obtain ⟨added, hrows, -⟩ := key
    intro k v hv
    rw [hrows]
    exact settingValue_append_left _ _ _ _ _ hv
  · obtain ⟨added, hrows, hadded⟩ := key
    rw [hrows, List.filter_append]
    have : added.filter (fun r => decide (r.setting_key ∉ ["auto_mode_enabled",
        "light_threshold", "polling_interval"])) = [] := by
      rw [List.filter_eq_nil_iff]
      intro r hr
      have := (hadded r hr).1
      simp only [defaultSettings, List.mem_cons, Prod.mk.injEq, List.mem_singleton,
        List.not_mem_nil, or_false] at this
      rcases this with h | h | h <;> simp [h.1]
    rw [this, List.append_nil]
  · intro h0
    have hall := runInit_status_zero env w s h0
    rw [(runInit_ok env w s hall).2.2, serverAfter_target]
    have hrows : ((((s.databases (databaseName env)).getD Database.empty).system_settings).getD
        Table.empty).rows = settingsRows (s.databases (databaseName env)) := by
      cases hdb : s.databases (databaseName env) with
      | none => rfl
      | some db => cases hss : db.system_settings <;> simp [settingsRows, hss, Table.empty]
    have hd := seedSettings_defaults s.collation (w.now .seedSettings)
      ((((s.databases (databaseName env)).getD Database.empty).system_settings).getD
        Table.empty)
    rw [hrows] at hd
    simpa [databaseAfter, Step.all, provisionStep, settingsRows] using hd

/-- C3, at a concrete server with a case-insensitive collation: the operator has stored 1500
under `LIGHT_THRESHOLD`; after a successful run a lookup of `light_threshold` still gives 1500,
and `polling_interval`, which had no row, holds its default. -/
theorem settings_seed_keeps_operator_values_witness :
    settingValue Collation.caseInsensitive
      (settingsRows ((runInit noEnv (calmWorld hashA 99) operatorServer).server.databases
        (databaseName noEnv))) "light_threshold" = some "1500" ∧
    settingValue Collation.caseInsensitive
      (settingsRows ((runInit noEnv (calmWorld hashA 99) operatorServer).server.databases
        (databaseName noEnv))) "polling_interval" = some "5000" :=
  ⟨(settings_seed_keeps_operator_values noEnv (calmWorld hashA 99) operatorServer).2.1
      "light_threshold" "1500" (by decide),
   ((settings_seed_keeps_operator_values noEnv (calmWorld hashA 99) operatorServer).2.2.2
      (runInit_ok noEnv (calmWorld hashA 99) operatorServer (fun _ => rfl)).1).2.2 (by decide)⟩

/-- The settings statement on a table without rows stores the three default pairs. -/
theorem seedSettings_fresh (coll : Collation) (now : Nat) (t : Table SettingRow)
    (h : t.rows = []) :
    (defaultSettings.foldl (upsertSetting coll now) t).rows =
      [⟨t.autoIncrement, "auto_mode_enabled", "true", now⟩,
       ⟨t.autoIncrement + 1, "light_threshold", "2000", now⟩,
       ⟨t.autoIncrement + 2, "polling_interval", "5000", now⟩] := by
  obtain ⟨h12, h13, h23⟩ := defaultKeys_apart coll
  cases t with
  | mk rows ai =>
    simp only at h
    subst h
    simp [defaultSettings, upsertSetting, h12, h13, h23]

/-- C5. Default settings after a first run: starting from a target database that holds no
settings row (the database or the table is absent, or the table is empty), after a run that exits
with status 0 the pairs of key and value in `system_settings` are exactly the three defaults, in
this order and with no other row. -/
theorem default_settings_after_first_run (env : Env) (w : World) (s : Server)
    (hempty : settingsRows (s.databases (databaseName env)) = [])
    (hok : (runInit env w s).status = 0) :
    (settingsRows ((runInit env w s).server.databases (databaseName env))).map
        (fun r => (r.setting_key, r.setting_value)) =
      [("auto_mode_enabled", "true"), ("light_threshold", "2000"),
       ("polling_interval", "5000")] := by
  have hall := runInit_status_zero env w s hok
  rw [(runInit_ok env w s hall).2.2, serverAfter_target]
  have hrows : ((((s.databases (databaseName env)).getD Database.empty).system_settings).getD
      Table.empty).rows = [] := by
    rw [← hempty]
    cases hdb : s.databases (databaseName env) with
    | none => rfl
    | some db => cases hss : db.system_settings <;> simp [settingsRows, hss, Table.empty]
  have hf := seedSettings_fresh s.collation (w.now .seedSettings) _ hrows
  simp [databaseAfter, Step.all, provisionStep, settingsRows, hf]

/-- C5, at a concrete run from a server without any database. -/
theorem default_settings_after_first_run_witness :
    (settingsRows ((runInit noEnv (calmWorld hashA 5) (Server.empty Collation.caseInsensitive)).server.databases
        (databaseName noEnv))).map (fun r => (r.setting_key, r.setting_value)) =
      [("auto_mode_enabled", "true"), ("light_threshold", "2000"),
       ("polling_interval", "5000")] :=
  default_settings_after_first_run noEnv (calmWorld hashA 5) (Server.empty Collation.caseInsensitive) rfl
    (runInit_ok noEnv (calmWorld hashA 5) (Server.empty Collation.caseInsensitive) (fun _ => rfl)).1

/-- The target database after a successful run against a server that did not hold it. -/
theorem databaseAfter_first (coll : Collation) (w : World) :
    databaseAfter coll w 12 Database.empty =
      { users := some ⟨[⟨1, "admin", (w.bcrypt "admin123" 10).value, Role.admin,
          w.now .seedAdmin⟩], 2⟩
        devices := some ⟨[⟨1, "LAMP_001", "Street Lamp 1", some "Main Street - North",
          Status.OFF, Mode.AUTO, false, none, w.now .seedDevice⟩], 2⟩
        sensor_data := some ⟨[], 1⟩
        control_logs := some ⟨[], 1⟩
        system_settings := some ⟨[⟨1, "auto_mode_enabled", "true", w.now .seedSettings⟩,
          ⟨2, "light_threshold", "2000", w.now .seedSettings⟩,
          ⟨3, "polling_interval", "5000", w.now .seedSettings⟩], 4⟩ } := by
  obtain ⟨h12, h13, h23⟩ := defaultKeys_apart coll
  simp [databaseAfter, Step.all, provisionStep, Database.empty, Table.empty, defaultSettings,
    upsertSetting, upsertUser, upsertDevice, sampleDevices, h12, h13, h23]

/-- A second successful run on that database changes the counters only. -/
theorem databaseAfter_second (coll : Collation) (w1 w2 : World) :
    (databaseAfter coll w2 12 (databaseAfter coll w1 12 Database.empty)).contents =
      (databaseAfter coll w1 12 Database.empty).contents := by
  rw [databaseAfter_first]
  simp [databaseAfter, Step.all, provisionStep, Database.contents, defaultSettings,
    upsertSetting, upsertUser, upsertDevice, sampleDevices]

theorem usersRows_contents (db : Database) :
    usersRows (some db) = db.contents.users.getD [] := by
  cases h : db.users <;> simp [usersRows, Database.contents, h]

theorem devicesRows_contents (db : Database) :
    devicesRows (some db) = db.contents.devices.getD [] := by
  cases h : db.devices <;> simp [devicesRows, Database.contents, h]

theorem settingsRows_contents (db : Database) :
    settingsRows (some db) = db.contents.system_settings.getD [] := by
  cases h : db.system_settings <;> simp [settingsRows, Database.contents, h]

theorem tableNames_contents (a b : Database) (h : a.contents = b.contents) :
    a.tableNames = b.tableNames := by
  have hu : a.users.isSome = b.users.isSome := by
    have := congrArg (fun c => c.users.isSome) h
    simpa [Database.contents] using this
  have hd : a.devices.isSome = b.devices.isSome := by
    have := congrArg (fun c => c.devices.isSome) h
    simpa [Database.contents] using this
  have hs : a.sensor_data.isSome = b.sensor_data.isSome := by
    have := congrArg (fun c => c.sensor_data.isSome) h
    simpa [Database.contents] using this
  have hc : a.control_logs.isSome = b.control_logs.isSome := by
    have := congrArg (fun c => c.control_logs.isSome) h
    simpa [Database.contents] using this
  have hss : a.system_settings.isSome = b.system_settings.isSome := by
    have := congrArg (fun c => c.system_settings.isSome) h
    simpa [Database.contents] using this
  simp only [Database.tableNames, hu, hd, hs, hc, hss]

/-- C1. Idempotence of `initializeDatabase`: starting from a server on which the target database
is absent, after two successive runs that exit with status 0 (with the same environment, and
with any hashes and clocks) every database of the server holds the same tables with the same
rows as after the first run; the target database holds the five tables of the schema, exactly
one row with username `admin`, exactly one row with device_id `LAMP_001`, and exactly one row
for each setting key. -/
theorem initializeDatabase_idempotent (env : Env) (w1 w2 : World) (s : Server)
    (habsent : s.databases (databaseName env) = none)
    (h1 : (runInit env w1 s).status = 0)
    (h2 : (runInit env w2 (runInit env w1 s).server).status = 0) :
    (∀ n, ((runInit env w2 (runInit env w1 s).server).server.databases n).map Database.contents
      = ((runInit env w1 s).server.databases n).map Database.contents) ∧
    ((runInit env w2 (runInit env w1 s).server).server.databases (databaseName env)).map
      Database.tableNames =
        some ["users", "devices", "sensor_data", "control_logs", "system_settings"] ∧
    ((runInit env w1 s).server.databases (databaseName env)).map Database.tableNames =
        some ["users", "devices", "sensor_data", "control_logs", "system_settings"] ∧
    (usersRows ((runInit env w2 (runInit env w1 s).server).server.databases
      (databaseName env))).countP (fun r => decide (r.username = "admin")) = 1 ∧
    (devicesRows ((runInit env w2 (runInit env w1 s).server).server.databases
      (databaseName env))).countP (fun r => decide (r.device_id = "LAMP_001")) = 1 ∧
    (settingsRows ((runInit env w2 (runInit env w1 s).server).server.databases
      (databaseName env))).map (fun r => r.setting_key) =
        ["auto_mode_enabled", "light_threshold", "polling_interval"] := by
  have hall1 := runInit_status_zero env w1 s h1
  have hall2 := runInit_status_zero env w2 _ h2
  have hs1 := (runInit_ok env w1 s hall1).2.2
  have hs2 := (runInit_ok env w2 (runInit env w1 s).server hall2).2.2
  have ht1 : (runInit env w1 s).server.databases (databaseName env) =
      some (databaseAfter s.collation w1 12 Database.empty) := by
    rw [hs1, serverAfter_target, habsent]
    rfl
  have ht2 : (runInit env w2 (runInit env w1 s).server).server.databases (databaseName env) =
      some (databaseAfter s.collation w2 12
        (databaseAfter s.collation w1 12 Database.empty)) := by
    have hc : (runInit env w1 s).server.collation = s.collation := by
      rw [hs1]
      unfold serverAfter
      split <;> rfl
    rw [hs2, serverAfter_target, ht1, hc]
    rfl
  have hnames : (databaseAfter s.collation w1 12 Database.empty).tableNames =
      ["users", "devices", "sensor_data", "control_logs", "system_settings"] := by
    rw [databaseAfter_first]
    rfl
  refine ⟨?_, ?_, ?_, ?_, ?_, ?_⟩
  · intro n
    by_cases hn : n = databaseName env
    · subst hn
      rw [ht2, ht1, Option.map_some', Option.map_some', databaseAfter_second]
    · rw [hs2, serverAfter_other _ _ _ _ _ hn]
  · rw [ht2, Option.map_some', tableNames_contents _ _ (databaseAfter_second s.collation w1 w2), hnames]
  · rw [ht1, Option.map_some', hnames]
  · rw [ht2, usersRows_contents, databaseAfter_second, databaseAfter_first]
    simp [Database.contents]
  · rw [ht2, devicesRows_contents, databaseAfter_second, databaseAfter_first]
    simp [Database.contents]
  · rw [ht2, settingsRows_contents, databaseAfter_second, databaseAfter_first]
    simp [Database.contents]

/-- C1, at a concrete pair of runs: the second run gets another hash and a later clock, and the
`users` table still holds the row of the first run only. -/
theorem initializeDatabase_idempotent_witness :
    (usersRows ((runInit noEnv (calmWorld hashB 77)
      (runInit noEnv (calmWorld hashA 5) (Server.empty Collation.caseInsensitive)).server).server.databases
      (databaseName noEnv))).countP (fun r => decide (r.username = "admin")) = 1 :=
  (initializeDatabase_idempotent noEnv (calmWorld hashA 5) (calmWorld hashB 77) (Server.empty Collation.caseInsensitive) rfl
    (runInit_ok noEnv (calmWorld hashA 5) (Server.empty Collation.caseInsensitive) (fun _ => rfl)).1
    (runInit_ok noEnv (calmWorld hashB 77) _ (fun _ => rfl)).1).2.2.2.1

theorem upsertDevice_conflict (coll : Collation) (now : Nat) (t : Table DeviceRow)
    (p : DeviceParams)
    (h : t.rows.any
      (fun r => decide (coll.weight r.device_id = coll.weight p.device_id)) = true) :
    upsertDevice coll now t p = { t with autoIncrement := t.autoIncrement + 1 } := by
  simp only [upsertDevice, h, if_true]

theorem upsertDevice_fresh (coll : Collation) (now : Nat) (t : Table DeviceRow)
    (p : DeviceParams)
    (h : t.rows.any
      (fun r => decide (coll.weight r.device_id = coll.weight p.device_id)) = false) :
    upsertDevice coll now t p =
      { rows := t.rows ++ [⟨t.autoIncrement, p.device_id, p.device_name, p.location,
          Status.OFF, Mode.AUTO, false, none, now⟩]
        autoIncrement := t.autoIncrement + 1 } := by
  simp only [upsertDevice, h, Bool.false_eq_true, if_false]

/-- C4, as the code has it.  A row holds a device_id when its own device_id has the same weight
under the collation.  Run the sample-device statement twice on the `devices` table with the same
device_id `d` and two pairs of name and location, all of them fitting their columns
(`VARCHAR(50)`, `VARCHAR(100)`, `VARCHAR(255)`): neither execution raises an error and the second
changes no row.  If no row held `d` before, the table then has exactly one row holding `d`: the
row appended by the first execution, with device_id `d`, the name and location of the first
execution, status `OFF`, mode `AUTO` and `is_online` false.  If a row held `d` before, the first
execution changes no row either. -/
theorem device_seed_noop_on_conflict (coll : Collation) (t : Table DeviceRow)
    (now1 now2 : Nat) (d name1 name2 : String) (location1 location2 : Option String)
    (hfit1 : fitsDevice ⟨d, name1, location1⟩ = true)
    (hfit2 : fitsDevice ⟨d, name2, location2⟩ = true) :
    ∃ t1 t2 : Table DeviceRow,
      insertDeviceRow coll now1 ⟨d, name1, location1⟩ t = .ok t1 ∧
      insertDeviceRow coll now2 ⟨d, name2, location2⟩ t1 = .ok t2 ∧
      t2.rows = t1.rows ∧
      ((∀ r ∈ t.rows, coll.weight r.device_id ≠ coll.weight d) →
        t2.rows = t.rows ++
          [⟨t.autoIncrement, d, name1, location1, Status.OFF, Mode.AUTO, false, none, now1⟩] ∧
        t2.rows.filter (fun r => decide (coll.weight r.device_id = coll.weight d)) =
          [⟨t.autoIncrement, d, name1, location1, Status.OFF, Mode.AUTO, false, none, now1⟩]) ∧
      ((∃ r ∈ t.rows, coll.weight r.device_id = coll.weight d) → t2.rows = t.rows) := by
  have hany1 : (upsertDevice coll now1 t ⟨d, name1, location1⟩).rows.any
      (fun r => decide (coll.weight r.device_id = coll.weight d)) = true := by
    by_cases h : t.rows.any (fun r => decide (coll.weight r.device_id = coll.weight d)) = true
    · rw [upsertDevice_conflict coll now1 t ⟨d, name1, location1⟩ h]
      exact h
    · simp only [Bool.not_eq_true] at h
      rw [upsertDevice_fresh coll now1 t ⟨d, name1, location1⟩ h]
      simp
  refine ⟨upsertDevice coll now1 t ⟨d, name1, location1⟩,
    { upsertDevice coll now1 t ⟨d, name1, location1⟩ with
        autoIncrement := (upsertDevice coll now1 t ⟨d, name1, location1⟩).autoIncrement + 1 },
    ?_, ?_, rfl, ?_, ?_⟩
  · simp only [insertDeviceRow, hfit1, if_true]
  · have hc := upsertDevice_conflict coll now2 _ ⟨d, name2, location2⟩ hany1
    simp only [insertDeviceRow, hfit2, if_true, hc]
  · intro habsent
    have hnone : t.rows.any
        (fun r => decide (coll.weight r.device_id = coll.weight d)) = false := by
      rw [List.any_eq_false]
      intro r hr
      simpa using habsent r hr
    have hfilter : t.rows.filter
        (fun r => decide (coll.weight r.device_id = coll.weight d)) = [] := by
      rw [List.filter_eq_nil_iff]
      intro r hr
      simpa using habsent r hr
    rw [upsertDevice_fresh coll now1 t ⟨d, name1, location1⟩ hnone]
    simp [List.filter_append, hfilter]
  · rintro ⟨r, hr, hrd⟩
    have hsome : t.rows.any
        (fun r => decide (coll.weight r.device_id = coll.weight d)) = true :=
      List.any_eq_true.mpr ⟨r, hr, by simp [hrd]⟩
    rw [upsertDevice_conflict coll now1 t ⟨d, name1, location1⟩ hsome]

/-- C4, at a concrete table: the sample device is inserted into an empty table, then inserted
again under another name. -/
theorem device_seed_noop_on_conflict_witness :
    ∃ t1 t2 : Table DeviceRow,
      insertDeviceRow Collation.caseInsensitive 5
        ⟨"LAMP_001", "Street Lamp 1", some "Main Street - North"⟩ ⟨[], 1⟩ = .ok t1 ∧
      insertDeviceRow Collation.caseInsensitive 9 ⟨"LAMP_001", "Renamed lamp", none⟩ t1
        = .ok t2 ∧
      t2.rows = [⟨1, "LAMP_001", "Street Lamp 1", some "Main Street - North", Status.OFF,
        Mode.AUTO, false, none, 5⟩] := by
  obtain ⟨t1, t2, h1, h2, -, h4, -⟩ := device_seed_noop_on_conflict Collation.caseInsensitive
    ⟨[], 1⟩ 5 9 "LAMP_001" "Street Lamp 1" "Renamed lamp" (some "Main Street - North") none
    (by decide) (by decide)
  exact ⟨t1, t2, h1, h2, (h4 (by simp)).1⟩

/-- C4 as stated fails.  With a device_name of 101 characters the first execution raises an
error and the table stays empty.  On a table that already holds `LAMP_001` under another name,
two executions with device_id `LAMP_001` leave that name, not the name of the first insert.  On a
table that holds `lamp_001`, under a case-insensitive collation, two executions with device_id
`LAMP_001` add no row: no row has device_id `LAMP_001`. -/
theorem device_seed_needs_fitting_fresh_values :
    insertDeviceRow Collation.caseInsensitive 5 ⟨"LAMP_001", longName, none⟩ ⟨[], 1⟩ =
      .error "Data too long for column" ∧
    (insertDeviceRow Collation.caseInsensitive 5
        ⟨"LAMP_001", "Street Lamp 1", some "Main Street - North"⟩
        ⟨[⟨1, "LAMP_001", "Old name", none, Status.ON, Mode.MANUAL, true, none, 2⟩], 2⟩ >>=
      insertDeviceRow Collation.caseInsensitive 9 ⟨"LAMP_001", "Street Lamp 2", none⟩) =
        .ok ⟨[⟨1, "LAMP_001", "Old name", none, Status.ON, Mode.MANUAL, true, none, 2⟩], 4⟩ ∧
    (insertDeviceRow Collation.caseInsensitive 5
        ⟨"LAMP_001", "Street Lamp 1", some "Main Street - North"⟩
        ⟨[⟨1, "lamp_001", "Harbour lamp", none, Status.ON, Mode.MANUAL, true, none, 15⟩], 2⟩ >>=
      insertDeviceRow Collation.caseInsensitive 9 ⟨"LAMP_001", "Street Lamp 2", none⟩) =
        .ok ⟨[⟨1, "lamp_001", "Harbour lamp", none, Status.ON, Mode.MANUAL, true, none, 15⟩],
          4⟩ := by
  refine ⟨by rfl, by rfl, by rfl⟩

end StreetLight
